import Mathlib

/-!
# Bastión Xólot — verification of the event correlation, risk-scoring and
# enforcement core

Shallow embedding of the repository `brawndon-manu/bastion-xolot`.

The repository ships the shared type declarations
(`shared/types/event.ts`, the alert/device/enforcement type files), the
backend configuration (`backend/src/config.ts`), the persistence helpers
(`backend/src/db/db.ts`, `schema.sql`) and the HTTP routers.  The service
layer the routers call (`correlation_service`, `device_service`,
`alert_service`, `enforcement_service`) is not part of the repository
snapshot; where a definition embeds that missing layer its doc comment
starts with `Modelled from the spec:` and follows the design document.

Timestamps (ISO-8601 strings in the source) are modelled as natural
numbers counting seconds; JSON numbers are modelled as `ℚ`.
-/

namespace BastionXolot

/-! ## Data model (shared type declarations) -/

/-- `DeviceStatus` from the device type file: `"normal" | "suspicious" |
"quarantined" | "trusted"`. -/
inductive DeviceStatus where
  | normal
  | suspicious
  | quarantined
  | trusted
  deriving DecidableEq, Repr

/-- `Device` from the device type file (id, MAC, IP, hostname, first/last
seen, status, risk score).  `vendor` and `user_label` are carried but never
consulted by the modelled core, so they are omitted. -/
structure Device where
  id : String
  mac_address : String
  ip_address : String
  hostname : Option String
  first_seen : Nat
  last_seen : Nat
  status : DeviceStatus
  risk_score : ℚ
  deriving DecidableEq, Repr

/-- `AlertSeverity` from the alert type file. -/
inductive AlertSeverity where
  | low
  | medium
  | high
  deriving DecidableEq, Repr

/-- `AlertStatus` from the alert type file. -/
inductive AlertStatus where
  | active
  | acknowledged
  | resolved
  deriving DecidableEq, Repr

/-- `AlertEvidence` from the alert type file (`source_module` plus
structured details).  The open `details` record is modelled as the list of
blocked domains plus the query count, the two detail fields the block-rate
detector of the spec stores. -/
structure AlertEvidence where
  source_module : String
  blocked_domains : List String
  query_count : Option Nat
  deriving DecidableEq, Repr

/-- `Alert` from the alert type file. -/
structure Alert where
  id : String
  device_id : String
  severity : AlertSeverity
  title : String
  explanation : String
  evidence : AlertEvidence
  confidence : ℚ
  status : AlertStatus
  created_at : Nat
  related_event_ids : List String
  deriving DecidableEq, Repr

/-- `EventType` from `shared/types/event.ts`. -/
inductive EventType where
  | device_seen
  | dns_blocked
  | dns_query
  | flow_summary
  | anomaly_detected
  | enforcement_action
  deriving DecidableEq, Repr

/-- The type-specific `data` payloads of `shared/types/event.ts`
(`DeviceSeenData`, `DnsBlockedData`, `DnsQueryData`), as a closed sum as
§9 of the design prescribes.  `anomalyDetected` carries the severity /
confidence / text the direct pass-through detector forwards. -/
inductive EventData where
  | deviceSeen (mac_address ip_address : String) (hostname : Option String) (isNew : Bool)
  | dnsBlocked (domain client_ip block_reason : String)
  | dnsQuery (domain client_ip query_type : String)
  | flowSummary
  | anomalyDetected (severity : AlertSeverity) (confidence : ℚ) (title explanation : String)
  | enforcementNote
  deriving DecidableEq, Repr

/-- `BastionEvent` from `shared/types/event.ts`. -/
structure BastionEvent where
  id : String
  type : EventType
  timestamp : Nat
  source : String
  device_id : Option String
  data : Option EventData
  deriving DecidableEq, Repr

/-- `EnforcementAction` from the enforcement type file. -/
inductive EnforcementAction where
  | quarantine
  | unquarantine
  | block_destination
  | unblock_destination
  | monitor_only
  deriving DecidableEq, Repr

/-- `EnforcementInitiator` from the enforcement type file. -/
inductive EnforcementInitiator where
  | system
  | user
  deriving DecidableEq, Repr

/-- `EnforcementStatus` from the enforcement type file:
`"applied" | "rolled_back" | "failed"`. -/
inductive EnforcementStatus where
  | applied
  | rolled_back
  | failed
  deriving DecidableEq, Repr

/-- `EnforcementTarget` from the enforcement type file. -/
structure EnforcementTarget where
  domain : Option String
  ip : Option String
  deriving DecidableEq, Repr

/-- `Enforcement` from the enforcement type file, the row shape of the
`enforcement_actions` relation of `schema.sql`. -/
structure Enforcement where
  id : String
  device_id : String
  action : EnforcementAction
  reason : String
  initiated_by : EnforcementInitiator
  alert_id : Option String
  target : Option EnforcementTarget
  status : EnforcementStatus
  created_at : Nat
  rolled_back_at : Option Nat
  deriving DecidableEq, Repr

/-! ## Configuration (`backend/src/config.ts`) -/

/-- The fields of the frozen `config` object relevant to the verified
properties. -/
structure Config where
  nodeEnv : String
  authSecret : Option String
  deriving DecidableEq, Repr

/-- JavaScript `a || b` over environment-variable reads: an unset variable
(`none`) and the empty string are both falsy. -/
def envOr (v : Option String) (fallback : Option String) : Option String :=
  match v with
  | some s => if s = "" then fallback else some s
  | none => fallback

/-- `const NODE_ENV = process.env.NODE_ENV || "development"`. -/
def resolveNodeEnv (envNodeEnv : Option String) : String :=
  (envOr envNodeEnv (some "development")).getD "development"

/-- `const AUTH_SECRET = process.env.AUTH_SECRET || (NODE_ENV === "development" ? "dev-secret-change-me" : undefined)`. -/
def resolveAuthSecret (envAuthSecret : Option String) (nodeEnv : String) : Option String :=
  envOr envAuthSecret (if nodeEnv = "development" then some "dev-secret-change-me" else none)

/-- Loading `config.ts`: resolve `NODE_ENV` and `AUTH_SECRET`, then the
production validation block
`if (NODE_ENV === "production") { if (!AUTH_SECRET) throw ... }`. -/
def loadConfig (envNodeEnv envAuthSecret : Option String) : Except String Config :=
  let nodeEnv := resolveNodeEnv envNodeEnv
  let authSecret := resolveAuthSecret envAuthSecret nodeEnv
  if nodeEnv = "production" ∧ authSecret = none then
    .error "AUTH_SECRET must be set in production environment"
  else
    .ok { nodeEnv := nodeEnv, authSecret := authSecret }

/-! ## Read routes (`backend/src/routes/devices.ts`, alerts router) -/

/-- A JSON response body as the routers build it: either a serialized
entity or an object with a single `error` field. -/
inductive RouteBody where
  | deviceJson (d : Device)
  | alertJson (a : Alert)
  | errorField (msg : String)
  deriving DecidableEq, Repr

/-- An HTTP response: status code plus JSON body. -/
structure HttpResponse where
  status : Nat
  body : RouteBody
  deriving DecidableEq, Repr

/-- `GET /devices/:id` from `routes/devices.ts`: look the device up via
`getDevice`; on `undefined` respond `404` with an `error` field, else
`200` with the device. -/
def getDeviceHandler (lookup : Option Device) : HttpResponse :=
  match lookup with
  | none => { status := 404, body := .errorField "Device not found" }
  | some d => { status := 200, body := .deviceJson d }

/-- `GET /alerts/:id` from the alerts router: a missing id path segment is
rejected with `400`, a lookup miss with `404`, otherwise the alert is
returned with `200`. -/
def getAlertHandler (id : String) (lookup : String → Option Alert) : HttpResponse :=
  if id = "" then { status := 400, body := .errorField "Missing alert id" }
  else
    match lookup id with
    | none => { status := 404, body := .errorField "Alert not found" }
    | some a => { status := 200, body := .alertJson a }

/-! ## Risk Scorer -/

/-- Modelled from the spec: the Risk Scorer severity weights (§4.4,
low = 10, medium = 25, high = 50); the risk-scoring service is not in the
repository snapshot. -/
def severityWeight : AlertSeverity → ℚ
  | .low => 10
  | .medium => 25
  | .high => 50

/-- Modelled from the spec: the fixed decay half-life, 72 hours (§4.4). -/
def halfLifeHours : Nat := 72

/-- Modelled from the spec: exponential time decay with half-life
`halfLifeHours`, discretised to whole half-life periods — a contribution
is halved once per full 72 elapsed hours. -/
def decayFactor (ageHours : Nat) : ℚ :=
  (1 / 2) ^ (ageHours / halfLifeHours)

/-- Age of an alert in whole hours at time `now` (timestamps in seconds). -/
def alertAgeHours (a : Alert) (now : Nat) : Nat :=
  (now - a.created_at) / 3600

/-- Modelled from the spec: one active alert's contribution to the risk
score, `severityWeight(severity) * confidence`, reduced by time decay
(§4.4). -/
def alertContribution (a : Alert) (now : Nat) : ℚ :=
  severityWeight a.severity * a.confidence * decayFactor (alertAgeHours a now)

/-- Clamp a score to the interval `[0, 100]`. -/
def clampScore (x : ℚ) : ℚ := max 0 (min 100 x)

/-- Modelled from the spec: `recompute(device, activeAlerts,
recentEnforcement, now) -> newScore` (§4.4); the risk-scoring service is
not in the repository snapshot.  The score accumulates each active
alert's decayed weighted contribution and clamps the total to `[0,100]`;
§4.4 gives no enforcement-history term in the scoring formula, so
`recentEnforcement` does not enter the sum. -/
def recompute (_device : Device) (activeAlerts : List Alert)
    (_recentEnforcement : List Enforcement) (now : Nat) : ℚ :=
  clampScore (activeAlerts.foldl (fun acc a => acc + alertContribution a now) 0)

/-- Modelled from the spec: the `normal → suspicious` promotion threshold
(default 40) and the hysteresis demotion threshold (default 25) of §4.4. -/
def suspicionThreshold : ℚ := 40

/-- Modelled from the spec: the lower hysteresis threshold of §4.4. -/
def hysteresisThreshold : ℚ := 25

/-- Modelled from the spec: the automatic status transition driven by the
recomputed score (§4.4) — `normal → suspicious` when the score crosses the
threshold, `suspicious → normal` when it falls below the hysteresis band;
other statuses are never touched by the scorer. -/
def scoreStatus (st : DeviceStatus) (score : ℚ) : DeviceStatus :=
  match st with
  | .normal => if suspicionThreshold ≤ score then .suspicious else .normal
  | .suspicious => if score < hysteresisThreshold then .normal else .suspicious
  | other => other

/-! ## Device Registry -/

/-- Look a device up by MAC address (the immutable key). -/
def findByMac (devices : List Device) (mac : String) : Option Device :=
  devices.find? (fun dv => dv.mac_address = mac)

/-- Modelled from the spec: `upsertDevice(mac, ip, hostnameHint, now) ->
Device` (§4.2); the device service is not in the repository snapshot.
First sighting of a MAC creates a Device with `first_seen = last_seen =
now`, `status = normal`, `risk_score = 0` (the defaults of `schema.sql`);
a later sighting updates `ip_address` and `last_seen`, and a sighting
whose timestamp is older than the stored `last_seen` is ignored. -/
def upsertDevice (devices : List Device) (mac ip : String)
    (hostnameHint : Option String) (now : Nat) : List Device :=
  match findByMac devices mac with
  | none =>
      devices ++ [{ id := mac, mac_address := mac, ip_address := ip,
                    hostname := hostnameHint, first_seen := now, last_seen := now,
                    status := .normal, risk_score := 0 }]
  | some dv =>
      if now < dv.last_seen then devices
      else
        devices.map (fun x =>
          if x.mac_address = mac then
            { x with ip_address := ip, last_seen := now }
          else x)

/-! ## Persisted state

The four relations of `schema.sql`: `devices`, `events`, `alerts`,
`enforcement_actions`.  Lists hold the newest row first (the pipeline and
the enforcement machine prepend). -/

/-- The persisted state: the four relations created by `schema.sql`. -/
structure Db where
  devices : List Device
  events : List BastionEvent
  alerts : List Alert
  enforcements : List Enforcement
  deriving DecidableEq, Repr

/-! ## Enforcement State Machine -/

/-- The error taxonomy of §7 restricted to the enforcement layer:
`InvalidTransitionError` (illegal request, no state change) and
`ExternalControlError` (the external mechanism failed or timed out). -/
inductive EnfError where
  | invalidTransition
  | externalControl
  deriving DecidableEq, Repr

/-- `setStatus(device, status, now)` of §4.2 lifted to the relation:
rewrite the status of the device with the given id. -/
def setDeviceStatus (devices : List Device) (deviceId : String)
    (st : DeviceStatus) : List Device :=
  devices.map (fun dv => if dv.id = deviceId then { dv with status := st } else dv)

/-- Status of the device with the given id, when it exists. -/
def deviceStatusOf (db : Db) (deviceId : String) : Option DeviceStatus :=
  (db.devices.find? (fun dv => dv.id = deviceId)).map (fun dv => dv.status)

/-- Whether the log holds an `applied` record of the given action for the
given device — the "prior applied record for that family" precondition of
§4.5 (keyed by the family's positive action). -/
def hasAppliedFor (log : List Enforcement) (deviceId : String)
    (a : EnforcementAction) : Bool :=
  log.any (fun r => r.device_id = deviceId ∧ r.action = a ∧ r.status = .applied)

/-- Whether the log (newest first) currently quarantines the device: the
scan stops at the most recent quarantine-family record that stands
(`status = applied`) — an applied `unquarantine` releases, an applied
`quarantine` quarantines, and rolled-back or failed records do not
count. -/
def effQuar (deviceId : String) : List Enforcement → Bool
  | [] => false
  | r :: older =>
      if r.device_id = deviceId ∧ r.action = .unquarantine ∧ r.status = .applied then false
      else if r.device_id = deviceId ∧ r.action = .quarantine ∧ r.status = .applied then true
      else effQuar deviceId older

/-- The right-hand side of the §3 quarantine invariant as the spec words
it: some `quarantine` record for the device stands `applied`, and no later
(smaller index: newest first) `unquarantine` record that stands applied —
nor any rollback of the record itself, which would have moved its status
off `applied` — exists for it. -/
def quarClaim (deviceId : String) (log : List Enforcement) : Prop :=
  ∃ (i : Nat) (r : Enforcement), log[i]? = some r ∧ r.device_id = deviceId ∧
    r.action = .quarantine ∧ r.status = .applied ∧
    ∀ (j : Nat) (r' : Enforcement), j < i → log[j]? = some r' →
      ¬(r'.device_id = deviceId ∧ r'.action = .unquarantine ∧ r'.status = .applied)

/-- Build a fresh enforcement record. -/
def mkEnforcement (newId deviceId : String) (a : EnforcementAction)
    (reason : String) (who : EnforcementInitiator) (alertId : Option String)
    (target : Option EnforcementTarget) (st : EnforcementStatus) (now : Nat) :
    Enforcement :=
  { id := newId, device_id := deviceId, action := a, reason := reason,
    initiated_by := who, alert_id := alertId, target := target,
    status := st, created_at := now, rolled_back_at := none }

/-- Modelled from the spec: `apply(deviceId, action, reason, initiator,
alertId?, target?) -> EnforcementRecord` of §4.5; the enforcement service
is not in the repository snapshot.  `externOk` is the success/failure
verdict of the external enforcement mechanism (§6); a timeout counts as
failure (§5).  Returns the state after the call together with the record
or the error:

* `quarantine` on an already-quarantined device returns the existing
  applied record (idempotency);
* `quarantine`/`block_destination` otherwise consult the external
  mechanism: on success the `applied` record is written (and for
  `quarantine` the device status becomes `quarantined`); on failure a
  `failed` record is written and the device status is untouched;
* `unquarantine`/`unblock_destination` require a prior applied record of
  the family's positive action, else `InvalidTransitionError` with no
  state change; when legal they consult the external mechanism likewise
  (successful `unquarantine` sets the device status to `normal`);
* `monitor_only` performs no external control and records `applied`. -/
def applyEnf (db : Db) (deviceId : String) (a : EnforcementAction)
    (reason : String) (who : EnforcementInitiator) (alertId : Option String)
    (target : Option EnforcementTarget) (externOk : Bool) (now : Nat)
    (newId : String) : Db × Except EnfError Enforcement :=
  match a with
  | .quarantine =>
      if deviceStatusOf db deviceId = some .quarantined then
        match db.enforcements.find?
            (fun r => r.device_id = deviceId ∧ r.action = .quarantine ∧ r.status = .applied) with
        | some r => (db, .ok r)
        | none => (db, .error .invalidTransition)
      else if externOk then
        let r := mkEnforcement newId deviceId .quarantine reason who alertId target .applied now
        ({ db with enforcements := r :: db.enforcements,
                   devices := setDeviceStatus db.devices deviceId .quarantined }, .ok r)
      else
        let r := mkEnforcement newId deviceId .quarantine reason who alertId target .failed now
        ({ db with enforcements := r :: db.enforcements }, .error .externalControl)
  | .unquarantine =>
      if hasAppliedFor db.enforcements deviceId .quarantine then
        if externOk then
          let r := mkEnforcement newId deviceId .unquarantine reason who alertId target .applied now
          ({ db with enforcements := r :: db.enforcements,
                     devices := setDeviceStatus db.devices deviceId .normal }, .ok r)
        else
          let r := mkEnforcement newId deviceId .unquarantine reason who alertId target .failed now
          ({ db with enforcements := r :: db.enforcements }, .error .externalControl)
      else (db, .error .invalidTransition)
  | .block_destination =>
      if externOk then
        let r := mkEnforcement newId deviceId .block_destination reason who alertId target .applied now
        ({ db with enforcements := r :: db.enforcements }, .ok r)
      else
        let r := mkEnforcement newId deviceId .block_destination reason who alertId target .failed now
        ({ db with enforcements := r :: db.enforcements }, .error .externalControl)
  | .unblock_destination =>
      if hasAppliedFor db.enforcements deviceId .block_destination then
        if externOk then
          let r := mkEnforcement newId deviceId .unblock_destination reason who alertId target .applied now
          ({ db with enforcements := r :: db.enforcements }, .ok r)
        else
          let r := mkEnforcement newId deviceId .unblock_destination reason who alertId target .failed now
          ({ db with enforcements := r :: db.enforcements }, .error .externalControl)
      else (db, .error .invalidTransition)
  | .monitor_only =>
      let r := mkEnforcement newId deviceId .monitor_only reason who alertId target .applied now
      ({ db with enforcements := r :: db.enforcements }, .ok r)

/-- Modelled from the spec: `rollback(recordId, now)` of §4.5; the
enforcement service is not in the repository snapshot.  The record is
addressed by its position in the log (ids are opaque and unique).  Only an
`applied` record may be rolled back; rollback sets `status = rolled_back`
and `rolled_back_at`, and for a quarantine-family record re-derives the
paired device's status from the surviving records ("unless a later
independent record says otherwise", §4.5). -/
def rollbackEnf (db : Db) (i : Nat) (now : Nat) : Db × Except EnfError Unit :=
  match db.enforcements[i]? with
  | none => (db, .error .invalidTransition)
  | some r =>
      if r.status = .applied then
        let r2 := { r with status := .rolled_back, rolled_back_at := some now }
        let newLog := db.enforcements.set i r2
        let newDevices :=
          if r.action = .quarantine ∨ r.action = .unquarantine then
            setDeviceStatus db.devices r.device_id
              (if effQuar r.device_id newLog then .quarantined else .normal)
          else db.devices
        ({ db with enforcements := newLog, devices := newDevices }, .ok ())
      else (db, .error .invalidTransition)

/-- A record that cannot influence the quarantine scan for device `d`: it
is not a standing (`applied`) quarantine-family record of `d`. -/
def quarIrrelevant (d : String) (r : Enforcement) : Prop :=
  ¬(r.device_id = d ∧ r.action = .unquarantine ∧ r.status = .applied) ∧
  ¬(r.device_id = d ∧ r.action = .quarantine ∧ r.status = .applied)

/-- The §3 quarantine invariant over the state, in executable form. -/
def InvEnf (db : Db) : Prop :=
  ∀ dv ∈ db.devices, (dv.status = .quarantined ↔ effQuar dv.id db.enforcements = true)

/-- Reachability by sequences of enforcement `apply` / `rollback`
operations, with arbitrary parameters and arbitrary external-mechanism
verdicts. -/
inductive EnfReach : Db → Db → Prop where
  | refl (db : Db) : EnfReach db db
  | applyStep {db0 db : Db} (deviceId : String) (a : EnforcementAction)
      (reason : String) (who : EnforcementInitiator) (alertId : Option String)
      (target : Option EnforcementTarget) (externOk : Bool) (now : Nat)
      (newId : String) :
      EnfReach db0 db →
      EnfReach db0 (applyEnf db deviceId a reason who alertId target externOk now newId).1
  | rollbackStep {db0 db : Db} (i : Nat) (now : Nat) :
      EnfReach db0 db →
      EnfReach db0 (rollbackEnf db i now).1

/-! ## Event Normalizer, Correlation Engine and pipeline -/

/-- Modelled from the spec: the payload-shape validation of
`normalize(raw)` (§4.1) — the `data` field must match the shape registered
for the event's `type` in `shared/types/event.ts`. -/
def eventDataMatches (ev : BastionEvent) : Bool :=
  match ev.type, ev.data with
  | .device_seen, some (.deviceSeen _ _ _ _) => true
  | .dns_blocked, some (.dnsBlocked _ _ _) => true
  | .dns_query, some (.dnsQuery _ _ _) => true
  | .flow_summary, some .flowSummary => true
  | .anomaly_detected, some (.anomalyDetected _ _ _ _) => true
  | .enforcement_action, some .enforcementNote => true
  | _, _ => false

/-- Modelled from the spec: the validation step of the pipeline —
a malformed payload is a `ValidationError` and nothing is persisted
(§4.1, §7). -/
def validateStep (ev : BastionEvent) (db : Db) : Except String Db :=
  if eventDataMatches ev then .ok db else .error "ValidationError"

/-- Modelled from the spec: the Device Registry upsert of the pipeline
(§2 data flow): a `device_seen` payload upserts by its MAC, a
`dns_blocked` event upserts the device it references with the client IP;
a `dns_blocked` event with no device reference is a `ValidationError`. -/
def deviceStep (ev : BastionEvent) (db : Db) : Except String Db :=
  match ev.data with
  | some (.deviceSeen mac ip host _) =>
      .ok { db with devices := upsertDevice db.devices mac ip host ev.timestamp }
  | some (.dnsBlocked _ cip _) =>
      match ev.device_id with
      | some mac =>
          .ok { db with devices := upsertDevice db.devices mac cip none ev.timestamp }
      | none => .error "ValidationError"
  | _ => .ok db

/-- Append the (immutable, append-only) event row (§3). -/
def insertEventStep (ev : BastionEvent) (db : Db) : Except String Db :=
  .ok { db with events := ev :: db.events }

/-- Modelled from the spec: the block-rate detector window W, 10 minutes
(§4.3), in seconds. -/
def windowSeconds : Nat := 600

/-- Modelled from the spec: the block-rate detector threshold N, 5 events
(§4.3). -/
def blockRateThreshold : Nat := 5

/-- Whether an event is a `dns_blocked` event of the given device inside
the window ending at time `ts`. -/
def inBlockWindow (d : String) (ts : Nat) (e : BastionEvent) : Bool :=
  e.device_id = some d ∧ e.type = .dns_blocked ∧ ts ≤ e.timestamp + windowSeconds

/-- The recent window of `dns_blocked` events of a device (§4.3). -/
def blockedWindow (d : String) (ts : Nat) (events : List BastionEvent) :
    List BastionEvent :=
  events.filter (inBlockWindow d ts)

/-- The distinct blocked domains of a list of `dns_blocked` events. -/
def domainsOf (events : List BastionEvent) : List String :=
  (events.filterMap (fun e =>
    match e.data with
    | some (.dnsBlocked dom _ _) => some dom
    | _ => none)).dedup

/-- Modelled from the spec: block-rate confidence "scales with count up
to a cap" (§4.3) — count/10, capped at 9/10. -/
def blockRateConfidence (n : Nat) : ℚ := min ((n : ℚ) / 10) (9 / 10)

/-- Whether an alert is the unresolved block-rate alert of a device, the
merge target of the repeat-offender policy (§4.3). -/
def isBlockRateAlertFor (d : String) (a : Alert) : Bool :=
  a.device_id = d ∧ a.status = .active ∧ a.evidence.source_module = "block_rate"

/-- Modelled from the spec: the Correlation Engine step of the pipeline
(§4.3); the correlation service body is not in the repository snapshot.
An `anomaly_detected` event passes through as one alert at the carried
severity and confidence.  A `dns_blocked` event runs the block-rate
detector: when the device's window holds `blockRateThreshold` or more
blocked lookups, the distinct blocked domains become the evidence of one
`medium` alert — merged into the device's unresolved block-rate alert
when one exists (repeat-offender policy), created otherwise. -/
def blockRateCorrelate (ev : BastionEvent) (d : String)
    (events : List BastionEvent) (alerts : List Alert) : List Alert :=
  let window := blockedWindow d ev.timestamp events
  if blockRateThreshold ≤ window.length then
    let doms := domainsOf window
    match alerts.find? (fun a => isBlockRateAlertFor d a) with
    | some a =>
        alerts.map (fun x =>
          if x.id = a.id then
            let ev2 : AlertEvidence :=
              { x.evidence with blocked_domains := doms, query_count := some window.length }
            { x with evidence := ev2,
                     confidence := blockRateConfidence window.length,
                     related_event_ids := ev.id :: x.related_event_ids }
          else x)
    | none =>
        { id := "alert-" ++ ev.id, device_id := d, severity := .medium,
          title := "Repeated blocked DNS lookups",
          explanation := "This device tried to reach several blocked destinations in a short time.",
          evidence := { source_module := "block_rate",
                        blocked_domains := doms,
                        query_count := some window.length },
          confidence := blockRateConfidence window.length,
          status := .active, created_at := ev.timestamp,
          related_event_ids := [ev.id] } :: alerts
  else alerts

/-- The alert relation the Correlation Engine leaves behind for one
event: the anomaly pass-through detector and the block-rate detector. -/
def correlateAlerts (ev : BastionEvent) (db : Db) : List Alert :=
  match ev.data with
  | some (.anomalyDetected sev conf title expl) =>
      match ev.device_id with
      | some d =>
          { id := "alert-" ++ ev.id, device_id := d, severity := sev,
            title := title, explanation := expl,
            evidence := { source_module := ev.source, blocked_domains := [],
                          query_count := none },
            confidence := conf, status := .active, created_at := ev.timestamp,
            related_event_ids := [ev.id] } :: db.alerts
      | none => db.alerts
  | some (.dnsBlocked _ _ _) =>
      match ev.device_id with
      | some d => blockRateCorrelate ev d db.events db.alerts
      | none => db.alerts
  | _ => db.alerts

def correlateStep (ev : BastionEvent) (db : Db) : Except String Db :=
  .ok { db with alerts := correlateAlerts ev db }

/-- The active alerts of a device, the input of `recompute` (§4.4). -/
def activeAlertsFor (db : Db) (d : String) : List Alert :=
  db.alerts.filter (fun a => a.device_id = d ∧ a.status = .active)

/-- Modelled from the spec: the Risk Scorer step of the pipeline —
recompute the referenced device's score from its active alerts and the
enforcement history, and apply the automatic status transition (§4.4). -/
def riskStep (ev : BastionEvent) (db : Db) : Except String Db :=
  match ev.device_id with
  | some d =>
      .ok { db with devices := db.devices.map (fun dv =>
        if dv.id = d then
          let score := recompute dv (activeAlertsFor db d) db.enforcements ev.timestamp
          { dv with risk_score := score, status := scoreStatus dv.status score }
        else dv) }
  | none => .ok db

/-- The write set of one event's pipeline run, as the ordered steps the
Transaction Coordinator commits as one unit (§2 data flow, §5). -/
def eventPipelineSteps (ev : BastionEvent) : List (Db → Except String Db) :=
  [validateStep ev, deviceStep ev, insertEventStep ev, correlateStep ev, riskStep ev]

/-- Run the steps sequentially; the first failure aborts the rest. -/
def runSteps : List (Db → Except String Db) → Db → Except String Db
  | [], db => .ok db
  | s :: rest, db =>
      match s db with
      | .ok db2 => runSteps rest db2
      | .error e => .error e

/-- Modelled from the spec: `transaction(fn)` of `backend/src/db/db.ts` —
the function's own documentation: "If any operation fails → all changes
are rolled back"; the commit/rollback mechanics live in the better-sqlite3
dependency, outside the snapshot.  On failure the visible state is the
original one. -/
def commitSteps (steps : List (Db → Except String Db)) (db : Db) : Db :=
  match runSteps steps db with
  | .ok db2 => db2
  | .error _ => db

/-- Outcome of one ingestion call (the events router responds `accepted`,
a duplicate is a no-op success, a failure is surfaced). -/
inductive IngestOutcome where
  | committed
  | duplicate
  | rejected (e : String)
  deriving DecidableEq, Repr

/-- Whether an event id was already committed (§4.1 deduplication). -/
def idCommitted (db : Db) (id : String) : Bool :=
  db.events.any (fun e => e.id = id)

/-- Modelled from the spec: `processIncomingEvent` of the correlation
service, the entry point the events router calls; the service body is not
in the repository snapshot.  Deduplicate by event id (a re-delivered id is
a no-op success, §4.1), then commit the event's pipeline run atomically
under the Transaction Coordinator (§5). -/
def processIncomingEvent (ev : BastionEvent) (db : Db) : Db × IngestOutcome :=
  if idCommitted db ev.id then (db, .duplicate)
  else
    (commitSteps (eventPipelineSteps ev) db,
     match runSteps (eventPipelineSteps ev) db with
     | .ok _ => .committed
     | .error e => .rejected e)

/-- Ingest a sequence of events in order. -/
def ingestAll (evs : List BastionEvent) (db : Db) : Db :=
  evs.foldl (fun s e => (processIncomingEvent e s).1) db

/-- A well-formed `dns_blocked` event for device `d`. -/
def mkDnsEvent (eid : String) (t : Nat) (src d dom cip rsn : String) : BastionEvent :=
  { id := eid, type := .dns_blocked, timestamp := t, source := src,
    device_id := some d, data := some (.dnsBlocked dom cip rsn) }

/-! ## Theorems -/

/-- Claim C10: with `NODE_ENV` resolved to `production` and `AUTH_SECRET`
unset, loading the configuration fails fast with the error
`AUTH_SECRET must be set in production environment`; the built-in default
`dev-secret-change-me` is used exactly when the resolved `NODE_ENV` is
`development` and the variable is unset. -/
theorem claim_C10_config_fail_fast :
    (∀ envAuthSecret : Option String, envAuthSecret = none →
      loadConfig (some "production") envAuthSecret =
        .error "AUTH_SECRET must be set in production environment") ∧
    resolveAuthSecret none "development" = some "dev-secret-change-me" ∧
    (∀ nodeEnv : String, nodeEnv ≠ "development" →
      resolveAuthSecret none nodeEnv = none) := by
  refine ⟨?_, rfl, ?_⟩
  · intro s hs
    subst hs
    rfl
  · intro nodeEnv h
    simp [resolveAuthSecret, envOr, h]

/-- Witness for C10 at concrete inputs. -/
theorem claim_C10_config_fail_fast_witness :
    loadConfig (some "production") none =
      .error "AUTH_SECRET must be set in production environment" ∧
    resolveAuthSecret none "production" = none :=
  ⟨claim_C10_config_fail_fast.1 none rfl,
   claim_C10_config_fail_fast.2.2 "production" (by decide)⟩

/-- Claim C9: a lookup miss on the read endpoints yields `404` with the
router's JSON error body (`Device not found` / `Alert not found`), and an
empty alert id path segment yields `400` with `Missing alert id`. -/
theorem claim_C9_not_found_responses :
    (∀ lookup : Option Device, lookup = none →
      getDeviceHandler lookup =
        { status := 404, body := .errorField "Device not found" }) ∧
    (∀ (id : String) (lookup : String → Option Alert),
      id ≠ "" → lookup id = none →
      getAlertHandler id lookup =
        { status := 404, body := .errorField "Alert not found" }) ∧
    (∀ lookup : String → Option Alert,
      getAlertHandler "" lookup =
        { status := 400, body := .errorField "Missing alert id" }) := by
  refine ⟨?_, ?_, ?_⟩
  · intro lookup h
    subst h
    rfl
  · intro id lookup hid hmiss
    simp [getAlertHandler, hid, hmiss]
  · intro lookup
    simp [getAlertHandler]

/-- Witness for C9 at concrete inputs. -/
theorem claim_C9_not_found_responses_witness :
    getDeviceHandler none = { status := 404, body := .errorField "Device not found" } ∧
    getAlertHandler "a1" (fun _ => none) =
      { status := 404, body := .errorField "Alert not found" } ∧
    getAlertHandler "" (fun _ => none) =
      { status := 400, body := .errorField "Missing alert id" } :=
  ⟨claim_C9_not_found_responses.1 none rfl,
   claim_C9_not_found_responses.2.1 "a1" (fun _ => none) (by decide) rfl,
   claim_C9_not_found_responses.2.2 (fun _ => none)⟩

/-- Accumulating contributions with `foldl` equals the sum of the mapped
list. -/
lemma foldl_add_map_sum (f : Alert → ℚ) (l : List Alert) (c : ℚ) :
    l.foldl (fun acc a => acc + f a) c = c + (l.map f).sum := by
  induction l generalizing c with
  | nil => simp
  | cons a t ih =>
      rw [List.foldl_cons, ih, List.map_cons, List.sum_cons]
      ring

/-- Claim C7: `recompute` is deterministic in its arguments, its result is
the sum over the active alerts of `severityWeight(severity) * confidence`
each reduced by the 72-hour half-life time decay, clamped to `[0, 100]`. -/
theorem claim_C7_recompute_pure_formula :
    (∀ (d1 d2 : Device) (a1 a2 : List Alert) (e1 e2 : List Enforcement) (n1 n2 : Nat),
      d1 = d2 → a1 = a2 → e1 = e2 → n1 = n2 →
      recompute d1 a1 e1 n1 = recompute d2 a2 e2 n2) ∧
    (∀ (dev : Device) (alerts : List Alert) (enf : List Enforcement) (now : Nat),
      recompute dev alerts enf now =
        clampScore ((alerts.map (fun a =>
          severityWeight a.severity * a.confidence * decayFactor (alertAgeHours a now))).sum) ∧
      0 ≤ recompute dev alerts enf now ∧ recompute dev alerts enf now ≤ 100) := by
  constructor
  · rintro d1 d2 a1 a2 e1 e2 n1 n2 rfl rfl rfl rfl
    rfl
  · intro dev alerts enf now
    refine ⟨?_, ?_, ?_⟩
    · rw [recompute, foldl_add_map_sum, zero_add]
      rfl
    · rw [recompute, clampScore]
      exact le_max_left 0 _
    · rw [recompute, clampScore]
      exact max_le (by norm_num) (min_le_left 100 _)

/-- Witness for C7 at concrete inputs. -/
theorem claim_C7_recompute_pure_formula_witness :
    recompute ⟨"aa", "aa", "ip", none, 0, 0, .normal, 0⟩ [] [] 7 =
      recompute ⟨"aa", "aa", "ip", none, 0, 0, .normal, 0⟩ [] [] 7 ∧
    (recompute ⟨"aa", "aa", "ip", none, 0, 0, .normal, 0⟩ [] [] 7 =
      clampScore ((([] : List Alert).map (fun a =>
        severityWeight a.severity * a.confidence * decayFactor (alertAgeHours a 7))).sum) ∧
      0 ≤ recompute ⟨"aa", "aa", "ip", none, 0, 0, .normal, 0⟩ [] [] 7 ∧
      recompute ⟨"aa", "aa", "ip", none, 0, 0, .normal, 0⟩ [] [] 7 ≤ 100) :=
  ⟨claim_C7_recompute_pure_formula.1 _ _ [] [] [] [] 7 7 rfl rfl rfl rfl,
   claim_C7_recompute_pure_formula.2 ⟨"aa", "aa", "ip", none, 0, 0, .normal, 0⟩ [] [] 7⟩

/-- First sighting of a MAC: the created device has
`first_seen = last_seen = now`, `status = normal`, `risk_score = 0`. -/
lemma upsertDevice_fresh (devices : List Device) (mac ip : String)
    (hint : Option String) (now : Nat) (h : findByMac devices mac = none) :
    findByMac (upsertDevice devices mac ip hint now) mac =
      some { id := mac, mac_address := mac, ip_address := ip, hostname := hint,
             first_seen := now, last_seen := now, status := .normal, risk_score := 0 } := by
  rw [upsertDevice, h]
  rw [findByMac] at h ⊢
  rw [List.find?_append, h]
  simp [List.find?]

/-- A sighting older than the stored `last_seen` is ignored. -/
lemma upsertDevice_stale (devices : List Device) (mac ip : String)
    (hint : Option String) (now : Nat) (dv : Device)
    (h : findByMac devices mac = some dv) (hlt : now < dv.last_seen) :
    upsertDevice devices mac ip hint now = devices := by
  rw [upsertDevice, h]
  dsimp only
  rw [if_pos hlt]

/-- `findByMac` commutes with the in-place update map of `upsertDevice`. -/
lemma findByMac_map_update (devices : List Device) (mac ip : String) (now : Nat) :
    findByMac (devices.map (fun x =>
      if x.mac_address = mac then { x with ip_address := ip, last_seen := now } else x)) mac =
    (findByMac devices mac).map (fun x =>
      if x.mac_address = mac then { x with ip_address := ip, last_seen := now } else x) := by
  have hfun : ((fun dv : Device => decide (dv.mac_address = mac)) ∘ (fun x : Device =>
      if x.mac_address = mac then { x with ip_address := ip, last_seen := now } else x)) =
      (fun dv : Device => decide (dv.mac_address = mac)) := by
    funext x
    by_cases hx : x.mac_address = mac <;> simp [Function.comp, hx]
  rw [findByMac, findByMac, List.find?_map, hfun]

/-- A sighting at or after the stored `last_seen` updates `ip_address` and
`last_seen`. -/
lemma upsertDevice_update (devices : List Device) (mac ip : String)
    (hint : Option String) (now : Nat) (dv : Device)
    (h : findByMac devices mac = some dv) (hle : dv.last_seen ≤ now) :
    findByMac (upsertDevice devices mac ip hint now) mac =
      some { dv with ip_address := ip, last_seen := now } := by
  have hmac : dv.mac_address = mac := by
    have := List.find?_some (p := fun x : Device => x.mac_address = mac) h
    exact of_decide_eq_true this
  rw [upsertDevice, h]
  dsimp only
  rw [if_neg (not_lt.mpr hle), findByMac_map_update, h]
  simp [hmac]

/-- Claim C8: `upsertDevice` creates a fresh device on first sighting of a
MAC with `first_seen = last_seen = now`, `status = normal`,
`risk_score = 0`; a later sighting updates `ip_address` and `last_seen`
except that a timestamp older than the stored `last_seen` is ignored, so
the stored `last_seen` never decreases. -/
theorem claim_C8_upsert_device :
    (∀ (devices : List Device) (mac ip : String) (hint : Option String) (now : Nat),
      findByMac devices mac = none →
      findByMac (upsertDevice devices mac ip hint now) mac =
        some { id := mac, mac_address := mac, ip_address := ip, hostname := hint,
               first_seen := now, last_seen := now, status := .normal, risk_score := 0 }) ∧
    (∀ (devices : List Device) (mac ip : String) (hint : Option String) (now : Nat)
      (dv : Device), findByMac devices mac = some dv → now < dv.last_seen →
      upsertDevice devices mac ip hint now = devices) ∧
    (∀ (devices : List Device) (mac ip : String) (hint : Option String) (now : Nat)
      (dv : Device), findByMac devices mac = some dv → dv.last_seen ≤ now →
      findByMac (upsertDevice devices mac ip hint now) mac =
        some { dv with ip_address := ip, last_seen := now }) ∧
    (∀ (devices : List Device) (mac ip : String) (hint : Option String) (now : Nat)
      (dv : Device), findByMac devices mac = some dv →
      ∃ dv', findByMac (upsertDevice devices mac ip hint now) mac = some dv' ∧
        dv.last_seen ≤ dv'.last_seen) := by
  refine ⟨upsertDevice_fresh, upsertDevice_stale, upsertDevice_update, ?_⟩
  intro devices mac ip hint now dv h
  by_cases hlt : now < dv.last_seen
  · exact ⟨dv, by rw [upsertDevice_stale devices mac ip hint now dv h hlt, h], le_refl _⟩
  · exact ⟨{ dv with ip_address := ip, last_seen := now },
      upsertDevice_update devices mac ip hint now dv h (not_lt.mp hlt), not_lt.mp hlt⟩

/-- Witness for C8 at concrete inputs. -/
theorem claim_C8_upsert_device_witness :
    findByMac (upsertDevice [] "m1" "10.0.0.9" none 3) "m1" =
      some { id := "m1", mac_address := "m1", ip_address := "10.0.0.9", hostname := none,
             first_seen := 3, last_seen := 3, status := .normal, risk_score := 0 } ∧
    upsertDevice [⟨"m1", "m1", "ip0", none, 5, 5, .normal, 0⟩] "m1" "ip1" none 4 =
      [⟨"m1", "m1", "ip0", none, 5, 5, .normal, 0⟩] ∧
    findByMac (upsertDevice [⟨"m1", "m1", "ip0", none, 5, 5, .normal, 0⟩] "m1" "ip1" none 9) "m1" =
      some ⟨"m1", "m1", "ip1", none, 5, 9, .normal, 0⟩ ∧
    ∃ dv', findByMac (upsertDevice [⟨"m1", "m1", "ip0", none, 5, 5, .normal, 0⟩] "m1" "ip1" none 9) "m1" =
      some dv' ∧ 5 ≤ dv'.last_seen :=
  ⟨claim_C8_upsert_device.1 [] "m1" "10.0.0.9" none 3 rfl,
   claim_C8_upsert_device.2.1 [⟨"m1", "m1", "ip0", none, 5, 5, .normal, 0⟩] "m1" "ip1" none 4
     ⟨"m1", "m1", "ip0", none, 5, 5, .normal, 0⟩ (by decide) (by decide),
   claim_C8_upsert_device.2.2.1 [⟨"m1", "m1", "ip0", none, 5, 5, .normal, 0⟩] "m1" "ip1" none 9
     ⟨"m1", "m1", "ip0", none, 5, 5, .normal, 0⟩ (by decide) (by decide),
   claim_C8_upsert_device.2.2.2 [⟨"m1", "m1", "ip0", none, 5, 5, .normal, 0⟩] "m1" "ip1" none 9
     ⟨"m1", "m1", "ip0", none, 5, 5, .normal, 0⟩ (by decide)⟩

/-- Claim C3: with no prior `applied` record of the family's positive
action, a release request (`unquarantine`, and analogously
`unblock_destination`) fails with `InvalidTransitionError` and the state —
device statuses included — is exactly unchanged. -/
theorem claim_C3_release_requires_applied :
    (∀ (db : Db) (deviceId reason : String) (who : EnforcementInitiator)
      (alertId : Option String) (target : Option EnforcementTarget)
      (externOk : Bool) (now : Nat) (newId : String),
      hasAppliedFor db.enforcements deviceId .quarantine = false →
      applyEnf db deviceId .unquarantine reason who alertId target externOk now newId =
        (db, .error .invalidTransition)) ∧
    (∀ (db : Db) (deviceId reason : String) (who : EnforcementInitiator)
      (alertId : Option String) (target : Option EnforcementTarget)
      (externOk : Bool) (now : Nat) (newId : String),
      hasAppliedFor db.enforcements deviceId .block_destination = false →
      applyEnf db deviceId .unblock_destination reason who alertId target externOk now newId =
        (db, .error .invalidTransition)) := by
  constructor
  · intro db deviceId reason who alertId target externOk now newId h
    rw [applyEnf]
    dsimp only
    rw [if_neg (by simp [h])]
  · intro db deviceId reason who alertId target externOk now newId h
    rw [applyEnf]
    dsimp only
    rw [if_neg (by simp [h])]

/-- Witness for C3 at concrete inputs. -/
theorem claim_C3_release_requires_applied_witness :
    applyEnf ⟨[⟨"d1", "d1", "ip", none, 0, 0, .normal, 0⟩], [], [], []⟩
        "d1" .unquarantine "release" .user none none true 5 "e1" =
      (⟨[⟨"d1", "d1", "ip", none, 0, 0, .normal, 0⟩], [], [], []⟩,
        .error .invalidTransition) ∧
    applyEnf ⟨[⟨"d1", "d1", "ip", none, 0, 0, .normal, 0⟩], [], [], []⟩
        "d1" .unblock_destination "unblock" .user none none true 5 "e2" =
      (⟨[⟨"d1", "d1", "ip", none, 0, 0, .normal, 0⟩], [], [], []⟩,
        .error .invalidTransition) :=
  ⟨claim_C3_release_requires_applied.1 _ "d1" "release" .user none none true 5 "e1" (by decide),
   claim_C3_release_requires_applied.2 _ "d1" "unblock" .user none none true 5 "e2" (by decide)⟩

/-- Claim C4: whenever an apply call actually consults the external
enforcement mechanism and the mechanism reports failure or times out
(`externOk = false`), the call writes exactly one new enforcement record
with `status = failed` — the audit trail never drops the attempt — while
the device relation, and so every device's status, is exactly unchanged,
and `ExternalControlError` is surfaced.  The consulting branches are:
`quarantine` on a not-yet-quarantined device, a legal `unquarantine`,
`block_destination`, and a legal `unblock_destination`; `monitor_only`
and guard-rejected calls never invoke the mechanism.  In particular a
failed or timed-out `apply("quarantine")` never leaves the device
`quarantined`. -/
theorem claim_C4_failed_apply_writes_failed_record :
    (∀ (db : Db) (deviceId reason : String) (who : EnforcementInitiator)
      (alertId : Option String) (target : Option EnforcementTarget)
      (now : Nat) (newId : String),
      deviceStatusOf db deviceId ≠ some .quarantined →
      applyEnf db deviceId .quarantine reason who alertId target false now newId =
        ({ db with enforcements :=
            mkEnforcement newId deviceId .quarantine reason who alertId target .failed now
              :: db.enforcements },
         .error .externalControl)) ∧
    (∀ (db : Db) (deviceId reason : String) (who : EnforcementInitiator)
      (alertId : Option String) (target : Option EnforcementTarget)
      (now : Nat) (newId : String),
      hasAppliedFor db.enforcements deviceId .quarantine = true →
      applyEnf db deviceId .unquarantine reason who alertId target false now newId =
        ({ db with enforcements :=
            mkEnforcement newId deviceId .unquarantine reason who alertId target .failed now
              :: db.enforcements },
         .error .externalControl)) ∧
    (∀ (db : Db) (deviceId reason : String) (who : EnforcementInitiator)
      (alertId : Option String) (target : Option EnforcementTarget)
      (now : Nat) (newId : String),
      applyEnf db deviceId .block_destination reason who alertId target false now newId =
        ({ db with enforcements :=
            mkEnforcement newId deviceId .block_destination reason who alertId target .failed now
              :: db.enforcements },
         .error .externalControl)) ∧
    (∀ (db : Db) (deviceId reason : String) (who : EnforcementInitiator)
      (alertId : Option String) (target : Option EnforcementTarget)
      (now : Nat) (newId : String),
      hasAppliedFor db.enforcements deviceId .block_destination = true →
      applyEnf db deviceId .unblock_destination reason who alertId target false now newId =
        ({ db with enforcements :=
            mkEnforcement newId deviceId .unblock_destination reason who alertId target .failed now
              :: db.enforcements },
         .error .externalControl)) := by
  refine ⟨?_, ?_, ?_, ?_⟩
  · intro db deviceId reason who alertId target now newId hq
    rw [applyEnf]
    dsimp only
    rw [if_neg hq]
    rfl
  · intro db deviceId reason who alertId target now newId hp
    rw [applyEnf]
    dsimp only
    rw [if_pos hp]
    rfl
  · intro db deviceId reason who alertId target now newId
    rw [applyEnf]
    rfl
  · intro db deviceId reason who alertId target now newId hp
    rw [applyEnf]
    dsimp only
    rw [if_pos hp]
    rfl

/-- Witness for C4 at concrete inputs: a failed quarantine attempt on a
normal device, a failed release of a quarantined device, and a failed
unblock after an applied block, each leaving the device relation as it
was and appending one `failed` record. -/
theorem claim_C4_failed_apply_writes_failed_record_witness :
    applyEnf ⟨[⟨"d1", "d1", "ip", none, 0, 0, .normal, 0⟩], [], [], []⟩
        "d1" .quarantine "contain" .system none none false 5 "e1" =
      (⟨[⟨"d1", "d1", "ip", none, 0, 0, .normal, 0⟩], [], [],
          [mkEnforcement "e1" "d1" .quarantine "contain" .system none none .failed 5]⟩,
        .error .externalControl) ∧
    applyEnf ⟨[⟨"d1", "d1", "ip", none, 0, 0, .quarantined, 0⟩], [], [],
          [mkEnforcement "q0" "d1" .quarantine "r" .system none none .applied 1]⟩
        "d1" .unquarantine "release" .user none none false 5 "e2" =
      (⟨[⟨"d1", "d1", "ip", none, 0, 0, .quarantined, 0⟩], [], [],
          [mkEnforcement "e2" "d1" .unquarantine "release" .user none none .failed 5,
           mkEnforcement "q0" "d1" .quarantine "r" .system none none .applied 1]⟩,
        .error .externalControl) ∧
    applyEnf ⟨[⟨"d1", "d1", "ip", none, 0, 0, .normal, 0⟩], [], [], []⟩
        "d1" .block_destination "block" .system none none false 5 "e3" =
      (⟨[⟨"d1", "d1", "ip", none, 0, 0, .normal, 0⟩], [], [],
          [mkEnforcement "e3" "d1" .block_destination "block" .system none none .failed 5]⟩,
        .error .externalControl) ∧
    applyEnf ⟨[⟨"d1", "d1", "ip", none, 0, 0, .normal, 0⟩], [], [],
          [mkEnforcement "b0" "d1" .block_destination "r" .system none none .applied 1]⟩
        "d1" .unblock_destination "unblock" .user none none false 5 "e4" =
      (⟨[⟨"d1", "d1", "ip", none, 0, 0, .normal, 0⟩], [], [],
          [mkEnforcement "e4" "d1" .unblock_destination "unblock" .user none none .failed 5,
           mkEnforcement "b0" "d1" .block_destination "r" .system none none .applied 1]⟩,
        .error .externalControl) :=
  ⟨claim_C4_failed_apply_writes_failed_record.1
      ⟨[⟨"d1", "d1", "ip", none, 0, 0, .normal, 0⟩], [], [], []⟩
      "d1" "contain" .system none none 5 "e1" (by decide),
   claim_C4_failed_apply_writes_failed_record.2.1
      ⟨[⟨"d1", "d1", "ip", none, 0, 0, .quarantined, 0⟩], [], [],
        [mkEnforcement "q0" "d1" .quarantine "r" .system none none .applied 1]⟩
      "d1" "release" .user none none 5 "e2" (by decide),
   claim_C4_failed_apply_writes_failed_record.2.2.1
      ⟨[⟨"d1", "d1", "ip", none, 0, 0, .normal, 0⟩], [], [], []⟩
      "d1" "block" .system none none 5 "e3",
   claim_C4_failed_apply_writes_failed_record.2.2.2
      ⟨[⟨"d1", "d1", "ip", none, 0, 0, .normal, 0⟩], [], [],
        [mkEnforcement "b0" "d1" .block_destination "r" .system none none .applied 1]⟩
      "d1" "unblock" .user none none 5 "e4" (by decide)⟩

/-- A failing step after a successful prefix fails the whole sequential
run. -/
lemma runSteps_error_of_step_error (k : Nat) (steps : List (Db → Except String Db))
    (db : Db) {db2 : Db} {s : Db → Except String Db} {e : String}
    (hk : steps[k]? = some s) (hpre : runSteps (steps.take k) db = .ok db2)
    (hfail : s db2 = .error e) : runSteps steps db = .error e := by
  induction k generalizing steps db with
  | zero =>
      cases steps with
      | nil => simp at hk
      | cons s0 rest =>
          simp only [List.getElem?_cons_zero, Option.some.injEq] at hk
          simp only [List.take_zero, runSteps, Except.ok.injEq] at hpre
          subst hk
          subst hpre
          rw [runSteps, hfail]
  | succ k ih =>
      cases steps with
      | nil => simp at hk
      | cons s0 rest =>
          simp only [List.getElem?_cons_succ] at hk
          rw [List.take_succ_cons, runSteps] at hpre
          rw [runSteps]
          cases h0 : s0 db with
          | error e0 => rw [h0] at hpre; cases hpre
          | ok db1 =>
              rw [h0] at hpre
              exact ih rest db1 hk hpre

/-- Claim C2: a failure at any step of the pipeline run of one ingested
event aborts the whole write set — the committed state afterwards is
exactly the state before the event, so no partial device / alert / risk /
enforcement write is ever visible. -/
theorem claim_C2_transaction_atomicity :
    ∀ (ev : BastionEvent) (db db2 : Db) (k : Nat)
      (s : Db → Except String Db) (e : String),
      (eventPipelineSteps ev)[k]? = some s →
      runSteps ((eventPipelineSteps ev).take k) db = .ok db2 →
      s db2 = .error e →
      (processIncomingEvent ev db).1 = db := by
  intro ev db db2 k s e hk hpre hfail
  have herr := runSteps_error_of_step_error k (eventPipelineSteps ev) db hk hpre hfail
  cases hd : idCommitted db ev.id with
  | false => simp [processIncomingEvent, hd, commitSteps, herr]
  | true => simp [processIncomingEvent, hd]

/-- Witness for C2: a malformed `dns_blocked` event (missing payload)
fails validation inside the pipeline and commits nothing. -/
theorem claim_C2_transaction_atomicity_witness :
    (processIncomingEvent ⟨"w1", .dns_blocked, 0, "agent", some "d1", none⟩
        ⟨[⟨"d1", "d1", "ip", none, 0, 0, .normal, 0⟩], [], [], []⟩).1 =
      ⟨[⟨"d1", "d1", "ip", none, 0, 0, .normal, 0⟩], [], [], []⟩ :=
  claim_C2_transaction_atomicity ⟨"w1", .dns_blocked, 0, "agent", some "d1", none⟩
    ⟨[⟨"d1", "d1", "ip", none, 0, 0, .normal, 0⟩], [], [], []⟩
    ⟨[⟨"d1", "d1", "ip", none, 0, 0, .normal, 0⟩], [], [], []⟩
    0 (validateStep ⟨"w1", .dns_blocked, 0, "agent", some "d1", none⟩)
    "ValidationError" rfl rfl rfl

/-- A successful validation step returns the state unchanged. -/
lemma validateStep_ok {ev : BastionEvent} {db db' : Db}
    (h : validateStep ev db = .ok db') : db' = db := by
  unfold validateStep at h
  split at h
  · cases h; rfl
  · cases h

/-- A successful device step changes only the device relation. -/
lemma deviceStep_ok_fields {ev : BastionEvent} {db db' : Db}
    (h : deviceStep ev db = .ok db') :
    db'.events = db.events ∧ db'.alerts = db.alerts ∧
      db'.enforcements = db.enforcements := by
  unfold deviceStep at h
  split at h
  · cases h; exact ⟨rfl, rfl, rfl⟩
  · split at h
    · cases h; exact ⟨rfl, rfl, rfl⟩
    · cases h
  · cases h; exact ⟨rfl, rfl, rfl⟩

/-- A successful correlation step changes only the alert relation. -/
lemma correlateStep_ok_fields {ev : BastionEvent} {db db' : Db}
    (h : correlateStep ev db = .ok db') :
    db'.events = db.events ∧ db'.devices = db.devices ∧
      db'.enforcements = db.enforcements := by
  unfold correlateStep at h
  cases h
  exact ⟨rfl, rfl, rfl⟩

/-- A successful risk step changes only the device relation. -/
lemma riskStep_ok_fields {ev : BastionEvent} {db db' : Db}
    (h : riskStep ev db = .ok db') :
    db'.events = db.events ∧ db'.alerts = db.alerts ∧
      db'.enforcements = db.enforcements := by
  unfold riskStep at h
  split at h
  · cases h; exact ⟨rfl, rfl, rfl⟩
  · cases h; exact ⟨rfl, rfl, rfl⟩

/-- A successfully committed pipeline run records the event id. -/
lemma runSteps_pipeline_commits (ev : BastionEvent) (db db' : Db)
    (h : runSteps (eventPipelineSteps ev) db = .ok db') :
    idCommitted db' ev.id = true := by
  rw [eventPipelineSteps, runSteps] at h
  cases h1 : validateStep ev db with
  | error e => rw [h1] at h; simp at h
  | ok db1 =>
      rw [h1] at h
      replace h : runSteps [deviceStep ev, insertEventStep ev, correlateStep ev,
          riskStep ev] db1 = .ok db' := h
      rw [runSteps] at h
      cases h2 : deviceStep ev db1 with
      | error e => rw [h2] at h; simp at h
      | ok db2 =>
          rw [h2] at h
          replace h : runSteps [correlateStep ev, riskStep ev]
              { db2 with events := ev :: db2.events } = .ok db' := h
          rw [runSteps] at h
          cases h4 : correlateStep ev { db2 with events := ev :: db2.events } with
          | error e => rw [h4] at h; simp at h
          | ok db4 =>
              rw [h4] at h
              replace h : runSteps [riskStep ev] db4 = .ok db' := h
              rw [runSteps] at h
              cases h5 : riskStep ev db4 with
              | error e => rw [h5] at h; simp at h
              | ok db5 =>
                  rw [h5] at h
                  replace h : Except.ok (ε := String) db5 = .ok db' := h
                  cases h
                  have he4 := (correlateStep_ok_fields h4).1
                  have he5 := (riskStep_ok_fields h5).1
                  rw [idCommitted, he5, he4]
                  simp

/-- Claim C5: re-submitting an event is idempotent — processing the same
event on the state its first processing produced leaves that state
exactly as it is, and an already-committed id is answered with a no-op
duplicate success rather than an error. -/
theorem claim_C5_idempotent_resubmission :
    ∀ (ev : BastionEvent) (db : Db),
      (processIncomingEvent ev (processIncomingEvent ev db).1).1 =
        (processIncomingEvent ev db).1 ∧
      (idCommitted db ev.id = true →
        processIncomingEvent ev db = (db, .duplicate)) := by
  intro ev db
  constructor
  · cases hd : idCommitted db ev.id with
    | true =>
        have h1 : (processIncomingEvent ev db).1 = db := by
          simp [processIncomingEvent, hd]
        rw [h1, h1]
    | false =>
        cases hrun : runSteps (eventPipelineSteps ev) db with
        | error e =>
            have h1 : (processIncomingEvent ev db).1 = db := by
              simp [processIncomingEvent, hd, commitSteps, hrun]
            rw [h1, h1]
        | ok db2 =>
            have h1 : (processIncomingEvent ev db).1 = db2 := by
              simp [processIncomingEvent, hd, commitSteps, hrun]
            rw [h1]
            have hc := runSteps_pipeline_commits ev db db2 hrun
            simp [processIncomingEvent, hc]
  · intro h
    simp [processIncomingEvent, h]

/-- Witness for C5 at concrete inputs. -/
theorem claim_C5_idempotent_resubmission_witness :
    (processIncomingEvent ⟨"e1", .flow_summary, 0, "m", none, some .flowSummary⟩
        (processIncomingEvent ⟨"e1", .flow_summary, 0, "m", none, some .flowSummary⟩
          ⟨[], [⟨"e1", .flow_summary, 0, "m", none, some .flowSummary⟩], [], []⟩).1).1 =
      (processIncomingEvent ⟨"e1", .flow_summary, 0, "m", none, some .flowSummary⟩
        ⟨[], [⟨"e1", .flow_summary, 0, "m", none, some .flowSummary⟩], [], []⟩).1 ∧
    processIncomingEvent ⟨"e1", .flow_summary, 0, "m", none, some .flowSummary⟩
        ⟨[], [⟨"e1", .flow_summary, 0, "m", none, some .flowSummary⟩], [], []⟩ =
      (⟨[], [⟨"e1", .flow_summary, 0, "m", none, some .flowSummary⟩], [], []⟩, .duplicate) :=
  ⟨(claim_C5_idempotent_resubmission ⟨"e1", .flow_summary, 0, "m", none, some .flowSummary⟩
      ⟨[], [⟨"e1", .flow_summary, 0, "m", none, some .flowSummary⟩], [], []⟩).1,
   (claim_C5_idempotent_resubmission ⟨"e1", .flow_summary, 0, "m", none, some .flowSummary⟩
      ⟨[], [⟨"e1", .flow_summary, 0, "m", none, some .flowSummary⟩], [], []⟩).2 (by decide)⟩

/-- Prepending a record that is irrelevant for `d` leaves the quarantine
scan unchanged. -/
lemma effQuar_cons_irrelevant {d : String} {r : Enforcement} (log : List Enforcement)
    (h : quarIrrelevant d r) : effQuar d (r :: log) = effQuar d log := by
  rw [effQuar, if_neg h.1, if_neg h.2]

/-- A standing `unquarantine` record of `d` at the head decides the scan. -/
lemma effQuar_cons_unquar {d : String} {r : Enforcement} (log : List Enforcement)
    (h1 : r.device_id = d) (h2 : r.action = .unquarantine) (h3 : r.status = .applied) :
    effQuar d (r :: log) = false := by
  rw [effQuar, if_pos ⟨h1, h2, h3⟩]

/-- A standing `quarantine` record of `d` at the head decides the scan. -/
lemma effQuar_cons_quar {d : String} {r : Enforcement} (log : List Enforcement)
    (h1 : r.device_id = d) (h2 : r.action = .quarantine) (h3 : r.status = .applied) :
    effQuar d (r :: log) = true := by
  rw [effQuar, if_neg (by simp [h2]), if_pos ⟨h1, h2, h3⟩]

/-- Overwriting a record irrelevant for `d` with another irrelevant record
leaves the quarantine scan unchanged. -/
lemma effQuar_set_irrelevant (d : String) :
    ∀ (log : List Enforcement) (i : Nat) (r r2 : Enforcement),
      log[i]? = some r → quarIrrelevant d r → quarIrrelevant d r2 →
      effQuar d (log.set i r2) = effQuar d log := by
  intro log
  induction log with
  | nil => intro i r r2 hi _ _; simp at hi
  | cons a t ih =>
      intro i r r2 hi h1 h2
      cases i with
      | zero =>
          simp only [List.getElem?_cons_zero, Option.some.injEq] at hi
          subst hi
          rw [List.set_cons_zero]
          rw [effQuar_cons_irrelevant t h2, effQuar_cons_irrelevant t h1]
      | succ k =>
          simp only [List.getElem?_cons_succ] at hi
          rw [List.set_cons_succ]
          by_cases c1 : a.device_id = d ∧ a.action = .unquarantine ∧ a.status = .applied
          · rw [effQuar, if_pos c1, effQuar, if_pos c1]
          · by_cases c2 : a.device_id = d ∧ a.action = .quarantine ∧ a.status = .applied
            · rw [effQuar, if_neg c1, if_pos c2, effQuar, if_neg c1, if_pos c2]
            · rw [effQuar, if_neg c1, if_neg c2, effQuar, if_neg c1, if_neg c2]
              exact ih k r r2 hi h1 h2

/-- The freshly-rolled-back record is irrelevant for every device. -/
lemma quarIrrelevant_rolled_back (d : String) (r : Enforcement) (now : Nat) :
    quarIrrelevant d { r with status := .rolled_back, rolled_back_at := some now } := by
  constructor <;> rintro ⟨-, -, h3⟩ <;> simp at h3

/-- A record of another device is irrelevant. -/
lemma quarIrrelevant_of_ne {d : String} {r : Enforcement} (h : r.device_id ≠ d) :
    quarIrrelevant d r := by
  constructor <;> rintro ⟨h1, -, -⟩ <;> exact h h1

/-- A record outside the quarantine family is irrelevant for everyone. -/
lemma quarIrrelevant_of_nonfamily {r : Enforcement}
    (h : ¬(r.action = .quarantine ∨ r.action = .unquarantine)) (d : String) :
    quarIrrelevant d r := by
  constructor <;> rintro ⟨-, h2, -⟩
  · exact h (Or.inr h2)
  · exact h (Or.inl h2)

/-- Appending an irrelevant record preserves the quarantine invariant. -/
lemma invEnf_prepend_irrelevant (db : Db) (r : Enforcement)
    (h : ∀ d, quarIrrelevant d r) (hInv : InvEnf db) :
    InvEnf { db with enforcements := r :: db.enforcements } := by
  intro dv hdv
  rw [effQuar_cons_irrelevant _ (h dv.id)]
  exact hInv dv hdv

/-- A successful quarantine write preserves the invariant. -/
lemma invEnf_quarantine_success (db : Db) (deviceId : String) (r : Enforcement)
    (hdev : r.device_id = deviceId) (hact : r.action = .quarantine)
    (hst : r.status = .applied) (hInv : InvEnf db) :
    InvEnf { db with enforcements := r :: db.enforcements,
                     devices := setDeviceStatus db.devices deviceId .quarantined } := by
  intro dv hdv
  obtain ⟨x, hx, rfl⟩ := List.mem_map.mp hdv
  by_cases hid : x.id = deviceId
  · have hq : effQuar deviceId (r :: db.enforcements) = true :=
      effQuar_cons_quar _ hdev hact hst
    simp [hid, hq]
  · have hirr : quarIrrelevant x.id r :=
      quarIrrelevant_of_ne (fun hc => hid (hdev ▸ hc).symm)
    simp only [if_neg hid]
    rw [effQuar_cons_irrelevant _ hirr]
    exact hInv x hx

/-- A successful unquarantine write preserves the invariant. -/
lemma invEnf_unquarantine_success (db : Db) (deviceId : String) (r : Enforcement)
    (hdev : r.device_id = deviceId) (hact : r.action = .unquarantine)
    (hst : r.status = .applied) (hInv : InvEnf db) :
    InvEnf { db with enforcements := r :: db.enforcements,
                     devices := setDeviceStatus db.devices deviceId .normal } := by
  intro dv hdv
  obtain ⟨x, hx, rfl⟩ := List.mem_map.mp hdv
  by_cases hid : x.id = deviceId
  · have hq : effQuar deviceId (r :: db.enforcements) = false :=
      effQuar_cons_unquar _ hdev hact hst
    simp [hid, hq]
  · have hirr : quarIrrelevant x.id r :=
      quarIrrelevant_of_ne (fun hc => hid (hdev ▸ hc).symm)
    simp only [if_neg hid]
    rw [effQuar_cons_irrelevant _ hirr]
    exact hInv x hx

/-- Every `apply` call preserves the quarantine invariant. -/
lemma invEnf_applyEnf (db : Db) (deviceId : String) (a : EnforcementAction)
    (reason : String) (who : EnforcementInitiator) (alertId : Option String)
    (target : Option EnforcementTarget) (externOk : Bool) (now : Nat)
    (newId : String) (hInv : InvEnf db) :
    InvEnf (applyEnf db deviceId a reason who alertId target externOk now newId).1 := by
  cases a with
  | quarantine =>
      rw [applyEnf]
      dsimp only
      by_cases hq : deviceStatusOf db deviceId = some .quarantined
      · rw [if_pos hq]
        rcases hfind : db.enforcements.find?
            (fun r => r.device_id = deviceId ∧ r.action = .quarantine ∧ r.status = .applied) with
          _ | r <;> rw [hfind] <;> exact hInv
      · rw [if_neg hq]
        cases externOk with
        | true =>
            exact invEnf_quarantine_success db deviceId _ rfl rfl rfl hInv
        | false =>
            exact invEnf_prepend_irrelevant db _
              (fun d => by constructor <;> rintro ⟨-, -, h3⟩ <;> simp [mkEnforcement] at h3) hInv
  | unquarantine =>
      rw [applyEnf]
      dsimp only
      by_cases hp : hasAppliedFor db.enforcements deviceId .quarantine = true
      · rw [if_pos hp]
        cases externOk with
        | true => exact invEnf_unquarantine_success db deviceId _ rfl rfl rfl hInv
        | false =>
            exact invEnf_prepend_irrelevant db _
              (fun d => by constructor <;> rintro ⟨-, -, h3⟩ <;> simp [mkEnforcement] at h3) hInv
      · rw [if_neg hp]
        exact hInv
  | block_destination =>
      rw [applyEnf]
      dsimp only
      cases externOk with
      | true =>
          exact invEnf_prepend_irrelevant db _
            (fun d => by constructor <;> rintro ⟨-, h2, -⟩ <;> simp [mkEnforcement] at h2) hInv
      | false =>
          exact invEnf_prepend_irrelevant db _
            (fun d => by constructor <;> rintro ⟨-, h2, -⟩ <;> simp [mkEnforcement] at h2) hInv
  | unblock_destination =>
      rw [applyEnf]
      dsimp only
      by_cases hp : hasAppliedFor db.enforcements deviceId .block_destination = true
      · rw [if_pos hp]
        cases externOk with
        | true =>
            exact invEnf_prepend_irrelevant db _
              (fun d => by constructor <;> rintro ⟨-, h2, -⟩ <;> simp [mkEnforcement] at h2) hInv
        | false =>
            exact invEnf_prepend_irrelevant db _
              (fun d => by constructor <;> rintro ⟨-, h2, -⟩ <;> simp [mkEnforcement] at h2) hInv
      · rw [if_neg hp]
        exact hInv
  | monitor_only =>
      rw [applyEnf]
      exact invEnf_prepend_irrelevant db _
        (fun d => by constructor <;> rintro ⟨-, h2, -⟩ <;> simp [mkEnforcement] at h2) hInv

/-- Every `rollback` call preserves the quarantine invariant. -/
lemma invEnf_rollbackEnf (db : Db) (i : Nat) (now : Nat) (hInv : InvEnf db) :
    InvEnf (rollbackEnf db i now).1 := by
  rw [rollbackEnf]
  cases hi : db.enforcements[i]? with
  | none => exact hInv
  | some r =>
      dsimp only
      by_cases hst : r.status = .applied
      · rw [if_pos hst]
        by_cases hfam : r.action = .quarantine ∨ r.action = .unquarantine
        · rw [if_pos hfam]
          intro dv hdv
          obtain ⟨x, hx, rfl⟩ := List.mem_map.mp hdv
          by_cases hid : x.id = r.device_id
          · cases hq : effQuar r.device_id
                (db.enforcements.set i
                  { r with status := .rolled_back, rolled_back_at := some now }) with
            | true => simp [hid, hq]
            | false => simp [hid, hq]
          · have heq : effQuar x.id
                (db.enforcements.set i
                  { r with status := .rolled_back, rolled_back_at := some now }) =
                effQuar x.id db.enforcements :=
              effQuar_set_irrelevant x.id db.enforcements i r _ hi
                (quarIrrelevant_of_ne (fun hc => hid hc.symm))
                (quarIrrelevant_rolled_back x.id r now)
            simp only [if_neg hid]
            rw [heq]
            exact hInv x hx
        · rw [if_neg hfam]
          intro dv hdv
          have heq : effQuar dv.id
              (db.enforcements.set i
                { r with status := .rolled_back, rolled_back_at := some now }) =
              effQuar dv.id db.enforcements :=
            effQuar_set_irrelevant dv.id db.enforcements i r _ hi
              (quarIrrelevant_of_nonfamily hfam dv.id)
              (quarIrrelevant_rolled_back dv.id r now)
          rw [heq]
          exact hInv dv hdv
      · rw [if_neg hst]
        exact hInv

/-- The executable quarantine scan coincides with the invariant as the
spec words it. -/
lemma effQuar_iff_quarClaim (d : String) :
    ∀ log : List Enforcement, effQuar d log = true ↔ quarClaim d log := by
  intro log
  induction log with
  | nil =>
      constructor
      · intro h; simp [effQuar] at h
      · rintro ⟨i, r, hi, -⟩; simp at hi
  | cons a t ih =>
      by_cases c1 : a.device_id = d ∧ a.action = .unquarantine ∧ a.status = .applied
      · rw [effQuar, if_pos c1]
        constructor
        · intro h; cases h
        · rintro ⟨i, r, hi, hd, hact, hst, hlater⟩
          cases i with
          | zero =>
              simp only [List.getElem?_cons_zero, Option.some.injEq] at hi
              subst hi
              rw [c1.2.1] at hact
              cases hact
          | succ k => exact absurd c1 (hlater 0 a (Nat.succ_pos k) (by simp))
      · by_cases c2 : a.device_id = d ∧ a.action = .quarantine ∧ a.status = .applied
        · rw [effQuar, if_neg c1, if_pos c2]
          constructor
          · intro _
            exact ⟨0, a, by simp, c2.1, c2.2.1, c2.2.2,
              fun j r' hj _ => absurd hj (Nat.not_lt_zero j)⟩
          · intro _; rfl
        · rw [effQuar, if_neg c1, if_neg c2, ih]
          constructor
          · rintro ⟨i, r, hi, hd, hact, hst, hlater⟩
            refine ⟨i + 1, r, by simpa using hi, hd, hact, hst, ?_⟩
            intro j r' hj hj2
            cases j with
            | zero =>
                simp only [List.getElem?_cons_zero, Option.some.injEq] at hj2
                subst hj2
                exact c1
            | succ k =>
                simp only [List.getElem?_cons_succ] at hj2
                exact hlater k r' (Nat.lt_of_succ_lt_succ hj) hj2
          · rintro ⟨i, r, hi, hd, hact, hst, hlater⟩
            cases i with
            | zero =>
                simp only [List.getElem?_cons_zero, Option.some.injEq] at hi
                subst hi
                exact absurd ⟨hd, hact, hst⟩ c2
            | succ k =>
                simp only [List.getElem?_cons_succ] at hi
                refine ⟨k, r, hi, hd, hact, hst, ?_⟩
                intro j r' hj hj2
                exact hlater (j + 1) r' (Nat.succ_lt_succ hj) (by simpa using hj2)

/-- Claim C1: starting from any state satisfying the quarantine invariant
(the initial empty-log state in particular), every state reachable by
enforcement `apply` / `rollback` operations satisfies it: a device's
status is `quarantined` iff its most recent standing quarantine-family
record is an `applied` quarantine with no later standing `unquarantine` or
rollback of it. -/
theorem claim_C1_quarantine_invariant :
    ∀ (db0 db : Db), InvEnf db0 → EnfReach db0 db →
      ∀ dv ∈ db.devices, (dv.status = .quarantined ↔ quarClaim dv.id db.enforcements) := by
  intro db0 db hInv0 hreach
  have hInv : InvEnf db := by
    induction hreach with
    | refl => exact hInv0
    | applyStep deviceId a reason who alertId target externOk now newId _ ih =>
        exact invEnf_applyEnf _ deviceId a reason who alertId target externOk now newId ih
    | rollbackStep i now _ ih => exact invEnf_rollbackEnf _ i now ih
  intro dv hdv
  rw [← effQuar_iff_quarClaim]
  exact hInv dv hdv

/-- Witness for C1: a fresh device quarantined successfully once. -/
theorem claim_C1_quarantine_invariant_witness :
    ((⟨"d1", "d1", "ip", none, 0, 0, .quarantined, 0⟩ : Device).status = .quarantined ↔
      quarClaim "d1"
        [mkEnforcement "q1" "d1" .quarantine "contain" .system none none .applied 5]) :=
  claim_C1_quarantine_invariant
    ⟨[⟨"d1", "d1", "ip", none, 0, 0, .normal, 0⟩], [], [], []⟩ _
    (by intro dv hdv; simp at hdv; subst hdv; simp [effQuar])
    (EnfReach.applyStep "d1" .quarantine "contain" .system none none true 5 "q1"
      (EnfReach.refl ⟨[⟨"d1", "d1", "ip", none, 0, 0, .normal, 0⟩], [], [], []⟩))
    ⟨"d1", "d1", "ip", none, 0, 0, .quarantined, 0⟩ (by decide)

lemma mkDnsEvent_timestamp (eid : String) (t : Nat) (src d dom cip rsn : String) :
    (mkDnsEvent eid t src d dom cip rsn).timestamp = t := rfl

lemma mkDnsEvent_id (eid : String) (t : Nat) (src d dom cip rsn : String) :
    (mkDnsEvent eid t src d dom cip rsn).id = eid := rfl

/-- An id carried by none of the stored events is not yet committed. -/
lemma idCommitted_eq_false {db : Db} {id : String}
    (h : ∀ e ∈ db.events, e.id ≠ id) : idCommitted db id = false := by
  rw [idCommitted, List.any_eq_false]
  intro e he
  simp [h e he]

/-- A `dns_blocked` event of device `d` inside the window qualifies. -/
lemma inBlockWindow_mkDns (d : String) (ts : Nat) (eid : String) (t : Nat)
    (src dom cip rsn : String) (h : ts ≤ t + 600) :
    inBlockWindow d ts (mkDnsEvent eid t src d dom cip rsn) = true := by
  simp [inBlockWindow, mkDnsEvent, windowSeconds, h]

/-- An event that is not a `dns_blocked` event of `d` never qualifies. -/
lemma inBlockWindow_false_of_not (d : String) (ts : Nat) (e : BastionEvent)
    (h : ¬(e.device_id = some d ∧ e.type = .dns_blocked)) :
    inBlockWindow d ts e = false := by
  rw [inBlockWindow]
  exact decide_eq_false (fun hc => h ⟨hc.1, hc.2.1⟩)

/-- The detector window of a qualifying prefix over a non-qualifying
history is exactly the prefix. -/
lemma blockedWindow_split (d : String) (ts : Nat) (evs rest : List BastionEvent)
    (hall : ∀ e ∈ evs, inBlockWindow d ts e = true)
    (hrest : ∀ e ∈ rest, inBlockWindow d ts e = false) :
    blockedWindow d ts (evs ++ rest) = evs := by
  rw [blockedWindow, List.filter_append, List.filter_eq_self.mpr hall,
    List.filter_eq_nil_iff.mpr (fun e he => by simp [hrest e he])]
  simp

/-- Ingesting a fresh well-formed `dns_blocked` event: the event row is
prepended, the alerts become the block-rate correlation over the extended
history, the enforcement log is untouched. -/
lemma process_dnsBlocked_fields (eid : String) (t : Nat) (src d dom cip rsn : String)
    (db : Db) (hfresh : idCommitted db eid = false) :
    ((processIncomingEvent (mkDnsEvent eid t src d dom cip rsn) db).1.events =
        mkDnsEvent eid t src d dom cip rsn :: db.events) ∧
    ((processIncomingEvent (mkDnsEvent eid t src d dom cip rsn) db).1.alerts =
        blockRateCorrelate (mkDnsEvent eid t src d dom cip rsn) d
          (mkDnsEvent eid t src d dom cip rsn :: db.events) db.alerts) ∧
    ((processIncomingEvent (mkDnsEvent eid t src d dom cip rsn) db).1.enforcements =
        db.enforcements) := by
  have hfr : idCommitted db (mkDnsEvent eid t src d dom cip rsn).id = false := hfresh
  rw [processIncomingEvent, if_neg (by rw [hfr]; simp)]
  exact ⟨rfl, rfl, rfl⟩

/-- Ingesting a `dns_blocked` event while the window is still below the
threshold leaves the alert relation empty. -/
lemma ingest_dns_below (eid : String) (t : Nat) (src d dom cip rsn : String)
    (prev rest : List BastionEvent) (db : Db)
    (hev : db.events = prev ++ rest)
    (hfresh : ∀ e ∈ db.events, e.id ≠ eid)
    (hprev : ∀ e ∈ prev, inBlockWindow d t e = true)
    (hrest : ∀ e ∈ rest, inBlockWindow d t e = false)
    (hlen : prev.length + 1 < blockRateThreshold)
    (halerts : db.alerts = []) :
    (processIncomingEvent (mkDnsEvent eid t src d dom cip rsn) db).1.events =
      mkDnsEvent eid t src d dom cip rsn :: prev ++ rest ∧
    (processIncomingEvent (mkDnsEvent eid t src d dom cip rsn) db).1.alerts = [] ∧
    (processIncomingEvent (mkDnsEvent eid t src d dom cip rsn) db).1.enforcements =
      db.enforcements := by
  obtain ⟨hE, hA, hF⟩ :=
    process_dnsBlocked_fields eid t src d dom cip rsn db (idCommitted_eq_false hfresh)
  refine ⟨by rw [hE, hev]; simp, ?_, hF⟩
  rw [hA, hev]
  have hwin : blockedWindow d t (mkDnsEvent eid t src d dom cip rsn :: (prev ++ rest)) =
      mkDnsEvent eid t src d dom cip rsn :: prev := by
    have hsplit := blockedWindow_split d t (mkDnsEvent eid t src d dom cip rsn :: prev) rest
      (by
        intro e he
        rcases List.mem_cons.mp he with rfl | hp
        · exact inBlockWindow_mkDns d t eid t src dom cip rsn (by omega)
        · exact hprev e hp)
      hrest
    simpa using hsplit
  simp only [blockRateCorrelate, mkDnsEvent_timestamp]
  rw [hwin]
  simp only [List.length_cons]
  rw [if_neg (Nat.not_le.mpr hlen)]
  exact halerts

/-- Ingesting the `dns_blocked` event that reaches the threshold over an
empty alert relation creates exactly one `medium` block-rate alert whose
evidence aggregates the distinct blocked domains of the window. -/
lemma ingest_dns_create (eid : String) (t : Nat) (src d dom cip rsn : String)
    (prev rest : List BastionEvent) (db : Db)
    (hev : db.events = prev ++ rest)
    (hfresh : ∀ e ∈ db.events, e.id ≠ eid)
    (hprev : ∀ e ∈ prev, inBlockWindow d t e = true)
    (hrest : ∀ e ∈ rest, inBlockWindow d t e = false)
    (hlen : blockRateThreshold ≤ prev.length + 1)
    (halerts : db.alerts = []) :
    (processIncomingEvent (mkDnsEvent eid t src d dom cip rsn) db).1.events =
      mkDnsEvent eid t src d dom cip rsn :: prev ++ rest ∧
    (processIncomingEvent (mkDnsEvent eid t src d dom cip rsn) db).1.alerts =
      [{ id := "alert-" ++ eid, device_id := d, severity := .medium,
         title := "Repeated blocked DNS lookups",
         explanation := "This device tried to reach several blocked destinations in a short time.",
         evidence := { source_module := "block_rate",
                       blocked_domains :=
                         domainsOf (mkDnsEvent eid t src d dom cip rsn :: prev),
                       query_count := some (prev.length + 1) },
         confidence := blockRateConfidence (prev.length + 1),
         status := .active, created_at := t, related_event_ids := [eid] }] ∧
    (processIncomingEvent (mkDnsEvent eid t src d dom cip rsn) db).1.enforcements =
      db.enforcements := by
  obtain ⟨hE, hA, hF⟩ :=
    process_dnsBlocked_fields eid t src d dom cip rsn db (idCommitted_eq_false hfresh)
  refine ⟨by rw [hE, hev]; simp, ?_, hF⟩
  rw [hA, hev]
  have hwin : blockedWindow d t (mkDnsEvent eid t src d dom cip rsn :: (prev ++ rest)) =
      mkDnsEvent eid t src d dom cip rsn :: prev := by
    have hsplit := blockedWindow_split d t (mkDnsEvent eid t src d dom cip rsn :: prev) rest
      (by
        intro e he
        rcases List.mem_cons.mp he with rfl | hp
        · exact inBlockWindow_mkDns d t eid t src dom cip rsn (by omega)
        · exact hprev e hp)
      hrest
    simpa using hsplit
  simp only [blockRateCorrelate, mkDnsEvent_timestamp, mkDnsEvent_id]
  rw [hwin]
  simp only [List.length_cons]
  rw [if_pos hlen, halerts]
  rfl

/-- Ingesting a further `dns_blocked` event while the device's block-rate
alert is active merges into that alert — updating its evidence — instead
of creating a second one. -/
lemma ingest_dns_merge (eid : String) (t : Nat) (src d dom cip rsn : String)
    (prev rest : List BastionEvent) (db : Db) (a : Alert)
    (hev : db.events = prev ++ rest)
    (hfresh : ∀ e ∈ db.events, e.id ≠ eid)
    (hprev : ∀ e ∈ prev, inBlockWindow d t e = true)
    (hrest : ∀ e ∈ rest, inBlockWindow d t e = false)
    (hlen : blockRateThreshold ≤ prev.length + 1)
    (halerts : db.alerts = [a])
    (hmatch : isBlockRateAlertFor d a = true) :
    (processIncomingEvent (mkDnsEvent eid t src d dom cip rsn) db).1.events =
      mkDnsEvent eid t src d dom cip rsn :: prev ++ rest ∧
    (processIncomingEvent (mkDnsEvent eid t src d dom cip rsn) db).1.alerts =
      [{ a with
          evidence := { a.evidence with
            blocked_domains := domainsOf (mkDnsEvent eid t src d dom cip rsn :: prev),
            query_count := some (prev.length + 1) },
          confidence := blockRateConfidence (prev.length + 1),
          related_event_ids := eid :: a.related_event_ids }] ∧
    (processIncomingEvent (mkDnsEvent eid t src d dom cip rsn) db).1.enforcements =
      db.enforcements := by
  obtain ⟨hE, hA, hF⟩ :=
    process_dnsBlocked_fields eid t src d dom cip rsn db (idCommitted_eq_false hfresh)
  refine ⟨by rw [hE, hev]; simp, ?_, hF⟩
  rw [hA, hev]
  have hwin : blockedWindow d t (mkDnsEvent eid t src d dom cip rsn :: (prev ++ rest)) =
      mkDnsEvent eid t src d dom cip rsn :: prev := by
    have hsplit := blockedWindow_split d t (mkDnsEvent eid t src d dom cip rsn :: prev) rest
      (by
        intro e he
        rcases List.mem_cons.mp he with rfl | hp
        · exact inBlockWindow_mkDns d t eid t src dom cip rsn (by omega)
        · exact hprev e hp)
      hrest
    simpa using hsplit
  simp only [blockRateCorrelate, mkDnsEvent_timestamp, mkDnsEvent_id]
  rw [hwin]
  simp only [List.length_cons]
  rw [if_pos hlen, halerts, List.find?_cons_of_pos _ hmatch]
  simp only [List.map_cons, List.map_nil, if_pos rfl, if_true]

/-- Claim C6: five `dns_blocked` events for one device within a 10-minute
window with distinct domains produce exactly one `medium` alert whose
evidence lists all five distinct blocked domains, and a sixth such event
in the window merges into that same alert — updating its evidence to the
six domains — rather than creating a second alert. -/
theorem claim_C6_block_rate_detector :
    ∀ (d id1 id2 id3 id4 id5 id6 dom1 dom2 dom3 dom4 dom5 dom6
       src1 src2 src3 src4 src5 src6 cip1 cip2 cip3 cip4 cip5 cip6
       rsn1 rsn2 rsn3 rsn4 rsn5 rsn6 : String)
      (t1 t2 t3 t4 t5 t6 : Nat) (db0 : Db),
      ([id1, id2, id3, id4, id5, id6] : List String).Nodup →
      ([dom1, dom2, dom3, dom4, dom5, dom6] : List String).Nodup →
      t1 ≤ t2 → t2 ≤ t3 → t3 ≤ t4 → t4 ≤ t5 → t5 ≤ t6 → t6 ≤ t1 + 600 →
      db0.alerts = [] →
      (∀ e ∈ db0.events, ¬(e.device_id = some d ∧ e.type = EventType.dns_blocked)) →
      (∀ e ∈ db0.events, e.id ∉ ([id1, id2, id3, id4, id5, id6] : List String)) →
      ∃ a : Alert,
        (ingestAll [mkDnsEvent id1 t1 src1 d dom1 cip1 rsn1,
                    mkDnsEvent id2 t2 src2 d dom2 cip2 rsn2,
                    mkDnsEvent id3 t3 src3 d dom3 cip3 rsn3,
                    mkDnsEvent id4 t4 src4 d dom4 cip4 rsn4,
                    mkDnsEvent id5 t5 src5 d dom5 cip5 rsn5] db0).alerts = [a] ∧
        a.device_id = d ∧ a.severity = .medium ∧
        (∀ x : String, x ∈ a.evidence.blocked_domains ↔
          x ∈ [dom1, dom2, dom3, dom4, dom5]) ∧
        ∃ a2 : Alert,
          (processIncomingEvent (mkDnsEvent id6 t6 src6 d dom6 cip6 rsn6)
            (ingestAll [mkDnsEvent id1 t1 src1 d dom1 cip1 rsn1,
                        mkDnsEvent id2 t2 src2 d dom2 cip2 rsn2,
                        mkDnsEvent id3 t3 src3 d dom3 cip3 rsn3,
                        mkDnsEvent id4 t4 src4 d dom4 cip4 rsn4,
                        mkDnsEvent id5 t5 src5 d dom5 cip5 rsn5] db0)).1.alerts = [a2] ∧
          a2.id = a.id ∧
          (∀ x : String, x ∈ a2.evidence.blocked_domains ↔
            x ∈ [dom1, dom2, dom3, dom4, dom5, dom6]) := by
  intro d id1 id2 id3 id4 id5 id6 dom1 dom2 dom3 dom4 dom5 dom6
    src1 src2 src3 src4 src5 src6 cip1 cip2 cip3 cip4 cip5 cip6
    rsn1 rsn2 rsn3 rsn4 rsn5 rsn6 t1 t2 t3 t4 t5 t6 db0
    hids hdoms h12 h23 h34 h45 h56 hspan halerts0 hblocked hfreshids
  have hdomsAll := hdoms
  simp only [List.nodup_cons, List.mem_cons, List.not_mem_nil, or_false, not_or,
    List.nodup_nil, and_true] at hids hdoms
  obtain ⟨⟨i12, i13, i14, i15, i16⟩, ⟨i23, i24, i25, i26⟩, ⟨i34, i35, i36⟩,
    ⟨i45, i46⟩, i56, -⟩ := hids
  obtain ⟨⟨m12, m13, m14, m15, m16⟩, ⟨m23, m24, m25, m26⟩, ⟨m34, m35, m36⟩,
    ⟨m45, m46⟩, m56, -⟩ := hdoms
  have hid_db0 : ∀ idx : String, idx ∈ ([id1, id2, id3, id4, id5, id6] : List String) →
      ∀ e ∈ db0.events, e.id ≠ idx := by
    intro idx hidx e he hc
    exact hfreshids e he (hc ▸ hidx)
  have hrest : ∀ ts : Nat, ∀ e ∈ db0.events, inBlockWindow d ts e = false :=
    fun ts e he => inBlockWindow_false_of_not d ts e (hblocked e he)
  show ∃ a : Alert,
      (processIncomingEvent (mkDnsEvent id5 t5 src5 d dom5 cip5 rsn5)
        (processIncomingEvent (mkDnsEvent id4 t4 src4 d dom4 cip4 rsn4)
          (processIncomingEvent (mkDnsEvent id3 t3 src3 d dom3 cip3 rsn3)
            (processIncomingEvent (mkDnsEvent id2 t2 src2 d dom2 cip2 rsn2)
              (processIncomingEvent (mkDnsEvent id1 t1 src1 d dom1 cip1 rsn1)
                db0).1).1).1).1).1.alerts = [a] ∧
      a.device_id = d ∧ a.severity = .medium ∧
      (∀ x : String, x ∈ a.evidence.blocked_domains ↔
        x ∈ [dom1, dom2, dom3, dom4, dom5]) ∧
      ∃ a2 : Alert,
        (processIncomingEvent (mkDnsEvent id6 t6 src6 d dom6 cip6 rsn6)
          (processIncomingEvent (mkDnsEvent id5 t5 src5 d dom5 cip5 rsn5)
            (processIncomingEvent (mkDnsEvent id4 t4 src4 d dom4 cip4 rsn4)
              (processIncomingEvent (mkDnsEvent id3 t3 src3 d dom3 cip3 rsn3)
                (processIncomingEvent (mkDnsEvent id2 t2 src2 d dom2 cip2 rsn2)
                  (processIncomingEvent (mkDnsEvent id1 t1 src1 d dom1 cip1 rsn1)
                    db0).1).1).1).1).1).1.alerts = [a2] ∧
        a2.id = a.id ∧
        (∀ x : String, x ∈ a2.evidence.blocked_domains ↔
          x ∈ [dom1, dom2, dom3, dom4, dom5, dom6])
  obtain ⟨hE1, hA1, hF1⟩ :=
    ingest_dns_below id1 t1 src1 d dom1 cip1 rsn1 [] db0.events db0
      (by simp) (hid_db0 id1 (by simp)) (by intro e he; simp at he) (hrest t1)
      (by norm_num [blockRateThreshold]) halerts0
  obtain ⟨db1, hdb1⟩ : ∃ x : Db,
      (processIncomingEvent (mkDnsEvent id1 t1 src1 d dom1 cip1 rsn1) db0).1 = x :=
    ⟨(processIncomingEvent (mkDnsEvent id1 t1 src1 d dom1 cip1 rsn1) db0).1, rfl⟩
  rw [hdb1] at hE1 hA1 ⊢
  have hfresh2 : ∀ e ∈ db1.events, e.id ≠ id2 := by
    rw [hE1]
    intro e he
    simp only [List.cons_append, List.nil_append, List.mem_cons] at he
    rcases he with rfl | h0
    · exact i12
    · exact hid_db0 id2 (by simp) e h0
  have hprev2 : ∀ e ∈ [mkDnsEvent id1 t1 src1 d dom1 cip1 rsn1],
      inBlockWindow d t2 e = true := by
    intro e he
    rcases List.mem_singleton.mp he with rfl
    exact inBlockWindow_mkDns d t2 id1 t1 src1 dom1 cip1 rsn1 (by omega)
  obtain ⟨hE2, hA2, hF2⟩ :=
    ingest_dns_below id2 t2 src2 d dom2 cip2 rsn2
      [mkDnsEvent id1 t1 src1 d dom1 cip1 rsn1] db0.events db1
      hE1 hfresh2 hprev2 (hrest t2) (by norm_num [blockRateThreshold]) hA1
  obtain ⟨db2, hdb2⟩ : ∃ x : Db,
      (processIncomingEvent (mkDnsEvent id2 t2 src2 d dom2 cip2 rsn2) db1).1 = x :=
    ⟨(processIncomingEvent (mkDnsEvent id2 t2 src2 d dom2 cip2 rsn2) db1).1, rfl⟩
  rw [hdb2] at hE2 hA2 ⊢
  have hfresh3 : ∀ e ∈ db2.events, e.id ≠ id3 := by
    rw [hE2]
    intro e he
    simp only [List.cons_append, List.nil_append, List.mem_cons] at he
    rcases he with rfl | rfl | h0
    · exact i23
    · exact i13
    · exact hid_db0 id3 (by simp) e h0
  have hprev3 : ∀ e ∈ [mkDnsEvent id2 t2 src2 d dom2 cip2 rsn2,
      mkDnsEvent id1 t1 src1 d dom1 cip1 rsn1], inBlockWindow d t3 e = true := by
    intro e he
    simp only [List.mem_cons, List.not_mem_nil, or_false] at he
    rcases he with rfl | rfl
    · exact inBlockWindow_mkDns d t3 id2 t2 src2 dom2 cip2 rsn2 (by omega)
    · exact inBlockWindow_mkDns d t3 id1 t1 src1 dom1 cip1 rsn1 (by omega)
  obtain ⟨hE3, hA3, hF3⟩ :=
    ingest_dns_below id3 t3 src3 d dom3 cip3 rsn3
      [mkDnsEvent id2 t2 src2 d dom2 cip2 rsn2,
       mkDnsEvent id1 t1 src1 d dom1 cip1 rsn1] db0.events db2
      hE2 hfresh3 hprev3 (hrest t3) (by norm_num [blockRateThreshold]) hA2
  obtain ⟨db3, hdb3⟩ : ∃ x : Db,
      (processIncomingEvent (mkDnsEvent id3 t3 src3 d dom3 cip3 rsn3) db2).1 = x :=
    ⟨(processIncomingEvent (mkDnsEvent id3 t3 src3 d dom3 cip3 rsn3) db2).1, rfl⟩
  rw [hdb3] at hE3 hA3 ⊢
  have hfresh4 : ∀ e ∈ db3.events, e.id ≠ id4 := by
    rw [hE3]
    intro e he
    simp only [List.cons_append, List.nil_append, List.mem_cons] at he
    rcases he with rfl | rfl | rfl | h0
    · exact i34
    · exact i24
    · exact i14
    · exact hid_db0 id4 (by simp) e h0
  have hprev4 : ∀ e ∈ [mkDnsEvent id3 t3 src3 d dom3 cip3 rsn3,
      mkDnsEvent id2 t2 src2 d dom2 cip2 rsn2,
      mkDnsEvent id1 t1 src1 d dom1 cip1 rsn1], inBlockWindow d t4 e = true := by
    intro e he
    simp only [List.mem_cons, List.not_mem_nil, or_false] at he
    rcases he with rfl | rfl | rfl
    · exact inBlockWindow_mkDns d t4 id3 t3 src3 dom3 cip3 rsn3 (by omega)
    · exact inBlockWindow_mkDns d t4 id2 t2 src2 dom2 cip2 rsn2 (by omega)
    · exact inBlockWindow_mkDns d t4 id1 t1 src1 dom1 cip1 rsn1 (by omega)
  obtain ⟨hE4, hA4, hF4⟩ :=
    ingest_dns_below id4 t4 src4 d dom4 cip4 rsn4
      [mkDnsEvent id3 t3 src3 d dom3 cip3 rsn3,
       mkDnsEvent id2 t2 src2 d dom2 cip2 rsn2,
       mkDnsEvent id1 t1 src1 d dom1 cip1 rsn1] db0.events db3
      hE3 hfresh4 hprev4 (hrest t4) (by norm_num [blockRateThreshold]) hA3
  obtain ⟨db4, hdb4⟩ : ∃ x : Db,
      (processIncomingEvent (mkDnsEvent id4 t4 src4 d dom4 cip4 rsn4) db3).1 = x :=
    ⟨(processIncomingEvent (mkDnsEvent id4 t4 src4 d dom4 cip4 rsn4) db3).1, rfl⟩
  rw [hdb4] at hE4 hA4 ⊢
  have hfresh5 : ∀ e ∈ db4.events, e.id ≠ id5 := by
    rw [hE4]
    intro e he
    simp only [List.cons_append, List.nil_append, List.mem_cons] at he
    rcases he with rfl | rfl | rfl | rfl | h0
    · exact i45
    · exact i35
    · exact i25
    · exact i15
    · exact hid_db0 id5 (by simp) e h0
  have hprev5 : ∀ e ∈ [mkDnsEvent id4 t4 src4 d dom4 cip4 rsn4,
      mkDnsEvent id3 t3 src3 d dom3 cip3 rsn3,
      mkDnsEvent id2 t2 src2 d dom2 cip2 rsn2,
      mkDnsEvent id1 t1 src1 d dom1 cip1 rsn1], inBlockWindow d t5 e = true := by
    intro e he
    simp only [List.mem_cons, List.not_mem_nil, or_false] at he
    rcases he with rfl | rfl | rfl | rfl
    · exact inBlockWindow_mkDns d t5 id4 t4 src4 dom4 cip4 rsn4 (by omega)
    · exact inBlockWindow_mkDns d t5 id3 t3 src3 dom3 cip3 rsn3 (by omega)
    · exact inBlockWindow_mkDns d t5 id2 t2 src2 dom2 cip2 rsn2 (by omega)
    · exact inBlockWindow_mkDns d t5 id1 t1 src1 dom1 cip1 rsn1 (by omega)
  obtain ⟨hE5, hA5, hF5⟩ :=
    ingest_dns_create id5 t5 src5 d dom5 cip5 rsn5
      [mkDnsEvent id4 t4 src4 d dom4 cip4 rsn4,
       mkDnsEvent id3 t3 src3 d dom3 cip3 rsn3,
       mkDnsEvent id2 t2 src2 d dom2 cip2 rsn2,
       mkDnsEvent id1 t1 src1 d dom1 cip1 rsn1] db0.events db4
      hE4 hfresh5 hprev5 (hrest t5) (by norm_num [blockRateThreshold]) hA4
  obtain ⟨a5, hA5, ha5id, ha5dev, ha5sev, ha5st, ha5sm, ha5bd⟩ :
      ∃ x : Alert,
        (processIncomingEvent (mkDnsEvent id5 t5 src5 d dom5 cip5 rsn5) db4).1.alerts =
          [x] ∧
        x.id = "alert-" ++ id5 ∧ x.device_id = d ∧ x.severity = .medium ∧
        x.status = .active ∧ x.evidence.source_module = "block_rate" ∧
        x.evidence.blocked_domains =
          domainsOf [mkDnsEvent id5 t5 src5 d dom5 cip5 rsn5,
            mkDnsEvent id4 t4 src4 d dom4 cip4 rsn4,
            mkDnsEvent id3 t3 src3 d dom3 cip3 rsn3,
            mkDnsEvent id2 t2 src2 d dom2 cip2 rsn2,
            mkDnsEvent id1 t1 src1 d dom1 cip1 rsn1] :=
    ⟨_, hA5, rfl, rfl, rfl, rfl, rfl, rfl⟩
  obtain ⟨db5, hdb5⟩ : ∃ x : Db,
      (processIncomingEvent (mkDnsEvent id5 t5 src5 d dom5 cip5 rsn5) db4).1 = x :=
    ⟨(processIncomingEvent (mkDnsEvent id5 t5 src5 d dom5 cip5 rsn5) db4).1, rfl⟩
  rw [hdb5] at hE5 hA5 ⊢
  have hfresh6 : ∀ e ∈ db5.events, e.id ≠ id6 := by
    rw [hE5]
    intro e he
    simp only [List.cons_append, List.nil_append, List.mem_cons] at he
    rcases he with rfl | rfl | rfl | rfl | rfl | h0
    · exact i56
    · exact i46
    · exact i36
    · exact i26
    · exact i16
    · exact hid_db0 id6 (by simp) e h0
  have hprev6 : ∀ e ∈ [mkDnsEvent id5 t5 src5 d dom5 cip5 rsn5,
      mkDnsEvent id4 t4 src4 d dom4 cip4 rsn4,
      mkDnsEvent id3 t3 src3 d dom3 cip3 rsn3,
      mkDnsEvent id2 t2 src2 d dom2 cip2 rsn2,
      mkDnsEvent id1 t1 src1 d dom1 cip1 rsn1], inBlockWindow d t6 e = true := by
    intro e he
    simp only [List.mem_cons, List.not_mem_nil, or_false] at he
    rcases he with rfl | rfl | rfl | rfl | rfl
    · exact inBlockWindow_mkDns d t6 id5 t5 src5 dom5 cip5 rsn5 (by omega)
    · exact inBlockWindow_mkDns d t6 id4 t4 src4 dom4 cip4 rsn4 (by omega)
    · exact inBlockWindow_mkDns d t6 id3 t3 src3 dom3 cip3 rsn3 (by omega)
    · exact inBlockWindow_mkDns d t6 id2 t2 src2 dom2 cip2 rsn2 (by omega)
    · exact inBlockWindow_mkDns d t6 id1 t1 src1 dom1 cip1 rsn1 (by omega)
  obtain ⟨hE6, hA6, hF6⟩ :=
    ingest_dns_merge id6 t6 src6 d dom6 cip6 rsn6
      [mkDnsEvent id5 t5 src5 d dom5 cip5 rsn5,
       mkDnsEvent id4 t4 src4 d dom4 cip4 rsn4,
       mkDnsEvent id3 t3 src3 d dom3 cip3 rsn3,
       mkDnsEvent id2 t2 src2 d dom2 cip2 rsn2,
       mkDnsEvent id1 t1 src1 d dom1 cip1 rsn1] db0.events db5 a5
      hE5 hfresh6 hprev6 (hrest t6) (by norm_num [blockRateThreshold]) hA5
      (by simp [isBlockRateAlertFor, ha5dev, ha5st, ha5sm])
  obtain ⟨a6, hA6, ha6id, ha6bd⟩ :
      ∃ x : Alert,
        (processIncomingEvent (mkDnsEvent id6 t6 src6 d dom6 cip6 rsn6) db5).1.alerts =
          [x] ∧
        x.id = a5.id ∧
        x.evidence.blocked_domains =
          domainsOf [mkDnsEvent id6 t6 src6 d dom6 cip6 rsn6,
            mkDnsEvent id5 t5 src5 d dom5 cip5 rsn5,
            mkDnsEvent id4 t4 src4 d dom4 cip4 rsn4,
            mkDnsEvent id3 t3 src3 d dom3 cip3 rsn3,
            mkDnsEvent id2 t2 src2 d dom2 cip2 rsn2,
            mkDnsEvent id1 t1 src1 d dom1 cip1 rsn1] :=
    ⟨_, hA6, rfl, rfl⟩
  have h15nodup : ([dom5, dom4, dom3, dom2, dom1] : List String).Nodup := by
    have h : ([dom1, dom2, dom3, dom4, dom5] : List String).Nodup :=
      (List.nodup_append.mp
        (show (([dom1, dom2, dom3, dom4, dom5] : List String) ++ [dom6]).Nodup from
          hdomsAll)).1
    simpa using List.nodup_reverse.mpr h
  have h16nodup : ([dom6, dom5, dom4, dom3, dom2, dom1] : List String).Nodup := by
    simpa using List.nodup_reverse.mpr hdomsAll
  have hdom5 : domainsOf [mkDnsEvent id5 t5 src5 d dom5 cip5 rsn5,
      mkDnsEvent id4 t4 src4 d dom4 cip4 rsn4,
      mkDnsEvent id3 t3 src3 d dom3 cip3 rsn3,
      mkDnsEvent id2 t2 src2 d dom2 cip2 rsn2,
      mkDnsEvent id1 t1 src1 d dom1 cip1 rsn1] = [dom5, dom4, dom3, dom2, dom1] := by
    simp only [domainsOf, List.filterMap_cons, List.filterMap_nil, mkDnsEvent]
    exact List.dedup_eq_self.mpr h15nodup
  have hdom6 : domainsOf [mkDnsEvent id6 t6 src6 d dom6 cip6 rsn6,
      mkDnsEvent id5 t5 src5 d dom5 cip5 rsn5,
      mkDnsEvent id4 t4 src4 d dom4 cip4 rsn4,
      mkDnsEvent id3 t3 src3 d dom3 cip3 rsn3,
      mkDnsEvent id2 t2 src2 d dom2 cip2 rsn2,
      mkDnsEvent id1 t1 src1 d dom1 cip1 rsn1] =
      [dom6, dom5, dom4, dom3, dom2, dom1] := by
    simp only [domainsOf, List.filterMap_cons, List.filterMap_nil, mkDnsEvent]
    exact List.dedup_eq_self.mpr h16nodup
  refine ⟨a5, hA5, ha5dev, ha5sev, ?_, a6, hA6, ha6id, ?_⟩
  · intro x
    rw [ha5bd, hdom5]
    simp only [List.mem_cons, List.not_mem_nil, or_false]
    constructor
    · rintro (rfl | rfl | rfl | rfl | rfl) <;> simp
    · rintro (rfl | rfl | rfl | rfl | rfl) <;> simp
  · intro x
    rw [ha6bd, hdom6]
    simp only [List.mem_cons, List.not_mem_nil, or_false]
    constructor
    · rintro (rfl | rfl | rfl | rfl | rfl | rfl) <;> simp
    · rintro (rfl | rfl | rfl | rfl | rfl | rfl) <;> simp

/-- Witness for C6 at concrete inputs. -/
theorem claim_C6_block_rate_detector_witness :
    ∃ a : Alert,
      (ingestAll [mkDnsEvent "i1" 10 "dns" "AA" "a.com" "ip" "bl",
                  mkDnsEvent "i2" 20 "dns" "AA" "b.com" "ip" "bl",
                  mkDnsEvent "i3" 30 "dns" "AA" "c.com" "ip" "bl",
                  mkDnsEvent "i4" 40 "dns" "AA" "d.com" "ip" "bl",
                  mkDnsEvent "i5" 50 "dns" "AA" "e.com" "ip" "bl"]
        ⟨[], [], [], []⟩).alerts = [a] ∧
      a.device_id = "AA" ∧ a.severity = .medium ∧
      (∀ x : String, x ∈ a.evidence.blocked_domains ↔
        x ∈ ["a.com", "b.com", "c.com", "d.com", "e.com"]) ∧
      ∃ a2 : Alert,
        (processIncomingEvent (mkDnsEvent "i6" 55 "dns" "AA" "f.com" "ip" "bl")
          (ingestAll [mkDnsEvent "i1" 10 "dns" "AA" "a.com" "ip" "bl",
                      mkDnsEvent "i2" 20 "dns" "AA" "b.com" "ip" "bl",
                      mkDnsEvent "i3" 30 "dns" "AA" "c.com" "ip" "bl",
                      mkDnsEvent "i4" 40 "dns" "AA" "d.com" "ip" "bl",
                      mkDnsEvent "i5" 50 "dns" "AA" "e.com" "ip" "bl"]
            ⟨[], [], [], []⟩)).1.alerts = [a2] ∧
        a2.id = a.id ∧
        (∀ x : String, x ∈ a2.evidence.blocked_domains ↔
          x ∈ ["a.com", "b.com", "c.com", "d.com", "e.com", "f.com"]) :=
  claim_C6_block_rate_detector "AA" "i1" "i2" "i3" "i4" "i5" "i6"
    "a.com" "b.com" "c.com" "d.com" "e.com" "f.com"
    "dns" "dns" "dns" "dns" "dns" "dns" "ip" "ip" "ip" "ip" "ip" "ip"
    "bl" "bl" "bl" "bl" "bl" "bl" 10 20 30 40 50 55 ⟨[], [], [], []⟩
    (by decide) (by decide) (by decide) (by decide) (by decide) (by decide)
    (by decide) (by decide) rfl (by simp) (by simp)

end BastionXolot
